import Mathlib

/-!
Verification development for the drone-convoy tracking server
(`drone-convoy-tracking-server` crates: `drone-core`, `drone-tracker`, `drone-cv`).

The Rust source is shallowly embedded here.  Real-valued (`f64`) arithmetic is
modelled by `ℚ`: every concrete trace examined below only exercises `f64`
operations whose results are exact (additions, multiplications, divisions of
small dyadic/rational values, comparisons far from rounding boundaries), so the
rational model agrees with the IEEE-754 run on those traces.  The transcendental
library functions (`sqrt`, `asin`, `acos`, `sin`, `cos`) and the constant `π`
have no exact rational counterpart; they are threaded through the embedding as
an explicit interpretation record `FloatFns`, and each theorem states the
(true-of-`f64`) facts about them that it needs, e.g. `sqrt 0 = 0` or
`sqrt 4 = 2`.  Machine integers (`u8`, `u32`, `usize`) are modelled by `ℕ` and
`i32`/`i64` by `ℤ`; all values reached below are far from wrap-around.
Timestamps (`chrono::Utc::now()`) are modelled by an explicit `now : ℤ`
parameter passed to the functions that read the clock.
-/

/-- Interpretation of the `f64` math-library functions used by the source.
Each field stands for the corresponding IEEE-754 double operation
(`f64::sqrt`, `f64::asin`, `f64::acos`, `f64::sin`, `f64::cos`,
`std::f64::consts::PI`). Theorems assume only pointwise facts about these
fields that the real `f64` functions satisfy on the inputs exercised. -/
structure FloatFns where
  sqrt : ℚ → ℚ
  asin : ℚ → ℚ
  acos : ℚ → ℚ
  sin : ℚ → ℚ
  cos : ℚ → ℚ
  pi : ℚ

/-- Truncation toward zero: the semantics of Rust `as i64` / `as i32` casts from
`f64` (for in-range arguments) and the implicit quotient in `f64` `%`. -/
def truncQ (q : ℚ) : ℤ :=
  if 0 ≤ q then ⌊q⌋ else ⌈q⌉

/-- Rust `%` on `f64` (`fmod`): remainder with the sign of the dividend,
`x - y * trunc(x / y)`.  IEEE-754 `fmod` is computed exactly, so the rational
model is exact for it. -/
def rustRem (x y : ℚ) : ℚ :=
  x - y * (truncQ (x / y) : ℚ)

namespace DroneCore

/-- Embeds `drone_core::geo::GeoPosition` (file `drone-core/src/geo.rs`). -/
structure GeoPosition where
  latitude : ℚ
  longitude : ℚ
  altitude : ℚ
deriving DecidableEq

/-- Embeds `GeoPosition::new`. -/
def GeoPosition.new (latitude longitude altitude : ℚ) : GeoPosition :=
  ⟨latitude, longitude, altitude⟩

/-- Embeds `f64::to_radians`: `x * (π / 180)`. -/
def toRadians (ops : FloatFns) (x : ℚ) : ℚ :=
  x * (ops.pi / 180)

/-- Embeds `GeoPosition::distance_to` (haversine distance in kilometres,
`geo.rs` lines 55-66) with `EARTH_RADIUS_KM = 6371`. -/
def GeoPosition.distance_to (ops : FloatFns) (p other : GeoPosition) : ℚ :=
  let lat1 := toRadians ops p.latitude
  let lat2 := toRadians ops other.latitude
  let delta_lat := toRadians ops (other.latitude - p.latitude)
  let delta_lng := toRadians ops (other.longitude - p.longitude)
  let a := (ops.sin (delta_lat / 2)) ^ 2
      + ops.cos lat1 * ops.cos lat2 * (ops.sin (delta_lng / 2)) ^ 2
  let c := 2 * ops.asin (ops.sqrt a)
  6371 * c

/-- Embeds `drone_core::Telemetry` (`drone-core/src/lib.rs` lines 162-180).
`u8` fields are modelled by `ℕ`; the `timestamp` field (a `chrono` time) is
modelled by `ℤ` and plays no role in the claims below. -/
structure Telemetry where
  battery_level : ℕ
  fuel_level : ℕ
  system_health : ℕ
  speed : ℚ
  heading : ℚ
  signal_strength : ℕ
  temperature : ℚ
  timestamp : ℤ
deriving DecidableEq

/-- Embeds `Telemetry::default` (battery/fuel/health/signal 100, speed 0,
heading 0, temperature 25).  The `Utc::now()` timestamp is modelled as 0. -/
def Telemetry.mkDefault : Telemetry :=
  { battery_level := 100, fuel_level := 100, system_health := 100
    speed := 0, heading := 0, signal_strength := 100
    temperature := 25, timestamp := 0 }

/-- Embeds `Telemetry::with_values` (`drone-core/src/lib.rs` lines 203-218):
percentages are clamped with `.min(100)` and the heading is stored as
`heading % 360.0` (Rust `f64` remainder); the remaining fields come from
`..Default::default()`. -/
def Telemetry.with_values (battery fuel health : ℕ) (speed heading : ℚ) :
    Telemetry :=
  { battery_level := min battery 100
    fuel_level := min fuel 100
    system_health := min health 100
    speed := speed
    heading := rustRem heading 360
    signal_strength := Telemetry.mkDefault.signal_strength
    temperature := Telemetry.mkDefault.temperature
    timestamp := Telemetry.mkDefault.timestamp }

/-- Embeds `drone_core::AlertSeverity`. -/
inductive AlertSeverity where
  | Info
  | Warning
  | Critical
  | Emergency
deriving DecidableEq

/-- Embeds `drone_core::AlertType`. -/
inductive AlertType where
  | BatteryLow
  | FuelLow
  | SignalLost
  | SystemFailure
  | WaypointDeviation
  | GeofenceBreach
  | CollisionWarning
  | WeatherAlert
  | Custom (s : String)
deriving DecidableEq

/-- Embeds `drone_core::Alert` (`drone-core/src/lib.rs` lines 549-560).  The
random `id : Uuid` and the `created_at` clock read are not modelled (no claim
mentions them); `acknowledged`/`resolved` start `false` as in `Alert::new`. -/
structure Alert where
  severity : AlertSeverity
  alert_type : AlertType
  message : String
  drone_id : Option String
  mission_id : Option String
  acknowledged : Bool
  resolved : Bool
deriving DecidableEq

/-- Embeds `Alert::new`. -/
def Alert.new (severity : AlertSeverity) (alert_type : AlertType)
    (message : String) : Alert :=
  { severity := severity, alert_type := alert_type, message := message
    drone_id := none, mission_id := none
    acknowledged := false, resolved := false }

/-- Embeds `Alert::for_drone`. -/
def Alert.for_drone (a : Alert) (id : String) : Alert :=
  { a with drone_id := some id }

/-- Embeds `drone_core::DroneStatus`. -/
inductive DroneStatus where
  | Standby
  | Moving
  | Engaged
  | Rtb
  | Offline
  | Maintenance
deriving DecidableEq

/-- Embeds `drone_core::Drone` (`drone-core/src/lib.rs` lines 110-122).
`DroneId` is modelled by `String`.  Fields not touched by any claim
(`drone_type`, `current_waypoint_index`, `mission_id`, `armed`, `last_update`)
are omitted. -/
structure Drone where
  id : String
  callsign : String
  position : GeoPosition
  telemetry : Telemetry
  status : DroneStatus
deriving DecidableEq

/-- Embeds `Drone::new` (default position, default telemetry, Standby). -/
def Drone.new (id callsign : String) : Drone :=
  { id := id, callsign := callsign
    position := ⟨0, 0, 0⟩
    telemetry := Telemetry.mkDefault
    status := DroneStatus.Standby }

/-- Embeds `drone_core::Waypoint` (`drone-core/src/lib.rs` lines 242-251).
`WaypointId` is a `String`; arrival-time and loiter fields are omitted (no
claim touches them). -/
structure Waypoint where
  id : String
  name : String
  position : GeoPosition
deriving DecidableEq

/-- Embeds `drone_core::MissionStatus`. -/
inductive MissionStatus where
  | Planning
  | Active
  | Paused
  | Completed
  | Aborted
deriving DecidableEq

/-- Embeds `drone_core::Mission` (`drone-core/src/lib.rs` lines 333-345).  The
random `MissionId`, description and clock fields are omitted (no claim touches
them). -/
structure Mission where
  name : String
  status : MissionStatus
  waypoints : List Waypoint
  assigned_drones : List String
deriving DecidableEq

end DroneCore

namespace Trk

open DroneCore

/-- Association-list insert with `HashMap`/`DashMap::insert` semantics: replace
the binding when the key is present, otherwise add it.  (Map iteration order is
not observable through any function embedded from `drone-tracker/src/lib.rs`.) -/
def listInsert {β : Type} (l : List (String × β)) (k : String) (v : β) :
    List (String × β) :=
  match l with
  | [] => [(k, v)]
  | (k', v') :: rest =>
      if k' = k then (k, v) :: rest else (k', v') :: listInsert rest k v

/-- Embeds `drone_tracker::TrackerConfig` (`drone-tracker/src/lib.rs` lines
41-57).  `update_interval` is kept in milliseconds; the `u8` thresholds are
`ℕ`. -/
structure TrackerConfig where
  update_interval_ms : ℕ
  waypoint_threshold_meters : ℚ
  p2p_enabled : Bool
  db_enabled : Bool
  battery_warning_threshold : ℕ
  battery_critical_threshold : ℕ
  fuel_warning_threshold : ℕ
  fuel_critical_threshold : ℕ
deriving DecidableEq

/-- Embeds `TrackerConfig::default` (lines 59-73). -/
def TrackerConfig.mkDefault : TrackerConfig :=
  { update_interval_ms := 100
    waypoint_threshold_meters := 100
    p2p_enabled := false
    db_enabled := true
    battery_warning_threshold := 30
    battery_critical_threshold := 15
    fuel_warning_threshold := 25
    fuel_critical_threshold := 10 }

/-- Embeds `drone_tracker::TrackedDrone` (lines 97-113).  Timestamps are `ℤ`. -/
structure TrackedDrone where
  drone : Drone
  waypoint_index : ℕ
  waypoint_progress : ℚ
  last_update : ℤ
  position_history : List (ℤ × GeoPosition)
  active_alerts : List Alert
deriving DecidableEq

/-- Embeds `TrackedDrone::new` (lines 116-126); `now` models `Utc::now()`. -/
def TrackedDrone.new (drone : Drone) (now : ℤ) : TrackedDrone :=
  { drone := drone
    waypoint_index := 0
    waypoint_progress := 0
    last_update := now
    position_history := []
    active_alerts := [] }

/-- Embeds `TrackedDrone::update_position` (lines 129-139): replace position
and telemetry, set `last_update`, push to the history, and drop the oldest
sample (`remove(0)`) when the length exceeds 100. -/
def TrackedDrone.update_position (t : TrackedDrone) (position : GeoPosition)
    (telemetry : Telemetry) (now : ℤ) : TrackedDrone :=
  let t := { t with
    drone := { t.drone with position := position, telemetry := telemetry }
    last_update := now }
  let hist := t.position_history ++ [(now, position)]
  { t with position_history := if 100 < hist.length then hist.tail else hist }

/-- State of `drone_tracker::DroneTracker` (lines 76-94).  The drone map is an
association list; the event/alert channels, CV engine, database and P2P
handles are not part of the state the claims mention — the alerts handed to
`alert_tx.try_send` are returned by `check_alerts` below instead. -/
structure DroneTracker where
  config : TrackerConfig
  drones : List (String × TrackedDrone)
  mission : Option Mission
deriving DecidableEq

/-- Embeds `DroneTracker::register_drone` (lines 211-216):
`self.drones.insert(id, TrackedDrone::new(drone))` — an unconditional map
insert. -/
def DroneTracker.register_drone (s : DroneTracker) (drone : Drone) (now : ℤ) :
    DroneTracker :=
  { s with drones := listInsert s.drones drone.id (TrackedDrone.new drone now) }

/-- Embeds `DroneTracker::set_mission` (lines 341-344):
`*self.mission.write() = Some(mission)`. -/
def DroneTracker.set_mission (s : DroneTracker) (mission : Mission) :
    DroneTracker :=
  { s with mission := some mission }

/-- Embeds `DroneTracker::check_waypoint_progress` (lines 264-303).  The
`waypoint_reached` event emission is not modelled (no claim mentions it); the
returned value is the mutated `TrackedDrone`. -/
def DroneTracker.check_waypoint_progress (ops : FloatFns)
    (config : TrackerConfig) (tracked : TrackedDrone) (mission : Mission) :
    TrackedDrone :=
  if h : tracked.waypoint_index < mission.waypoints.length then
    let current_wp := mission.waypoints.get ⟨tracked.waypoint_index, h⟩
    let dist := GeoPosition.distance_to ops tracked.drone.position
        current_wp.position
    let distance_meters := dist * 1000
    if distance_meters < config.waypoint_threshold_meters then
      { tracked with
        waypoint_index := tracked.waypoint_index + 1
        waypoint_progress := 0 }
    else if 0 < tracked.waypoint_index then
      let prev_wp := mission.waypoints.getD (tracked.waypoint_index - 1)
          current_wp
      let total_distance := GeoPosition.distance_to ops prev_wp.position
          current_wp.position
      let remaining := GeoPosition.distance_to ops tracked.drone.position
          current_wp.position
      if 0 < total_distance then
        { tracked with waypoint_progress := 1 - remaining / total_distance }
      else tracked
    else tracked
  else tracked

/-- Embeds `DroneTracker::check_alerts` (lines 306-339): the list of alerts
handed to `alert_tx.try_send`, in program order.  Note the source has a
critical-battery branch, a warning-battery branch and a critical-fuel branch —
and no warning-fuel branch. -/
def DroneTracker.check_alerts (config : TrackerConfig) (tracked : TrackedDrone) :
    List Alert :=
  let drone := tracked.drone
  let id := drone.id
  let batteryAlerts :=
    if drone.telemetry.battery_level < config.battery_critical_threshold then
      [(Alert.new AlertSeverity.Critical AlertType.BatteryLow
          ("Battery critical: " ++ toString drone.telemetry.battery_level
            ++ "%")).for_drone id]
    else if drone.telemetry.battery_level < config.battery_warning_threshold then
      [(Alert.new AlertSeverity.Warning AlertType.BatteryLow
          ("Battery low: " ++ toString drone.telemetry.battery_level
            ++ "%")).for_drone id]
    else []
  let fuelAlerts :=
    if drone.telemetry.fuel_level < config.fuel_critical_threshold then
      [(Alert.new AlertSeverity.Critical AlertType.FuelLow
          ("Fuel critical: " ++ toString drone.telemetry.fuel_level
            ++ "%")).for_drone id]
    else []
  batteryAlerts ++ fuelAlerts

/-- Embeds `DroneTracker::update_drone_position` (lines 219-261): look the
drone up, update its position, run the waypoint check when a mission is
active, and collect the alerts from `check_alerts`.  Event broadcast and
database persistence are not modelled (no claim mentions them). -/
def DroneTracker.update_drone_position (ops : FloatFns) (s : DroneTracker)
    (drone_id : String) (position : GeoPosition) (telemetry : Telemetry)
    (now : ℤ) : DroneTracker × List Alert :=
  match s.drones.lookup drone_id with
  | none => (s, [])
  | some tracked =>
      let tracked := tracked.update_position position telemetry now
      let tracked :=
        match s.mission with
        | some mission =>
            DroneTracker.check_waypoint_progress ops s.config tracked mission
        | none => tracked
      let alerts := DroneTracker.check_alerts s.config tracked
      ({ s with drones := listInsert s.drones drone_id tracked }, alerts)

end Trk

namespace MissionExec

open DroneCore

/-- Embeds `drone_tracker::mission::WaypointProgress`
(`drone-tracker/src/mission.rs` lines 21-27).  The `estimated_arrival`
timestamp is `ℤ`. -/
structure WaypointProgress where
  current_index : ℕ
  progress_to_next : ℚ
  waypoints_completed : List String
  estimated_arrival : Option ℤ
deriving DecidableEq

/-- Embeds `WaypointProgress::new` (lines 29-38). -/
def WaypointProgress.new : WaypointProgress :=
  { current_index := 0
    progress_to_next := 0
    waypoints_completed := []
    estimated_arrival := none }

/-- Embeds `drone_tracker::mission::MissionExecutor` state (lines 9-18).  The
per-drone progress `HashMap` is an association list. -/
structure MissionExecutor where
  mission : Option Mission
  drone_progress : List (String × WaypointProgress)
  start_time : Option ℤ
  threshold_km : ℚ
deriving DecidableEq

/-- Embeds `MissionExecutor::new` (lines 48-55): no mission, empty progress
map, threshold 0.5 km. -/
def MissionExecutor.new : MissionExecutor :=
  { mission := none, drone_progress := [], start_time := none
    threshold_km := 1/2 }

/-- Embeds `MissionExecutor::set_mission` (lines 57-68): insert a fresh
`WaypointProgress::new()` for every drone assigned to the mission, then store
the mission. -/
def MissionExecutor.set_mission (ex : MissionExecutor) (mission : Mission) :
    MissionExecutor :=
  let progress := mission.assigned_drones.foldl
    (fun acc drone_id => Trk.listInsert acc drone_id WaypointProgress.new)
    ex.drone_progress
  { ex with drone_progress := progress, mission := some mission }

/-- Embeds `drone_tracker::mission::WaypointReached` (lines 246-252). -/
structure WaypointReached where
  drone_id : String
  waypoint_id : String
  waypoint_name : String
  position : GeoPosition
  index : ℕ
deriving DecidableEq

/-- Embeds `MissionExecutor::update_drone_position` (lines 112-175): returns
the mutated executor and `Some(WaypointReached)` when the proximity threshold
is met, `None` otherwise.  `now` models `Utc::now()` in the
estimated-arrival computation; `(time_hours * 3600.0) as i64` is `truncQ`. -/
def MissionExecutor.update_drone_position (ops : FloatFns)
    (ex : MissionExecutor) (drone_id : String) (position : GeoPosition)
    (speed : ℚ) (now : ℤ) : MissionExecutor × Option WaypointReached :=
  match ex.mission with
  | none => (ex, none)
  | some mission =>
    if mission.status ≠ MissionStatus.Active then (ex, none)
    else
      match ex.drone_progress.lookup drone_id with
      | none => (ex, none)
      | some progress =>
        match mission.waypoints.get? progress.current_index with
        | none => (ex, none)
        | some current_wp =>
          let dist := GeoPosition.distance_to ops position current_wp.position
          if dist < ex.threshold_km then
            let reached : WaypointReached :=
              { drone_id := drone_id
                waypoint_id := current_wp.id
                waypoint_name := current_wp.name
                position := current_wp.position
                index := progress.current_index }
            let progress := { progress with
              waypoints_completed :=
                progress.waypoints_completed ++ [current_wp.id]
              current_index := progress.current_index + 1
              progress_to_next := 0 }
            ({ ex with drone_progress :=
                Trk.listInsert ex.drone_progress drone_id progress },
             some reached)
          else
            match mission.waypoints.get? progress.current_index with
            | none => (ex, none)
            | some next_wp =>
              let total_distance :=
                if 0 < progress.current_index then
                  (mission.waypoints.getD (progress.current_index - 1)
                    next_wp).position.distance_to ops next_wp.position
                else
                  dist + 1
              let progress := { progress with
                progress_to_next := 1 - min (dist / total_distance) 1 }
              let progress :=
                if 0 < speed then
                  let time_hours := dist / speed
                  let eta := now + truncQ (time_hours * 3600)
                  { progress with estimated_arrival := some eta }
                else progress
              ({ ex with drone_progress :=
                  Trk.listInsert ex.drone_progress drone_id progress }, none)

end MissionExec

namespace Convoy

open DroneCore

/-- Embeds `drone_tracker::convoy::Formation`. -/
inductive Formation where
  | Line
  | Vee
  | Diamond
  | Echelon
  | Column
  | Spread
deriving DecidableEq

/-- Embeds `drone_tracker::convoy::FormationOffset` (lines 48-55). -/
structure FormationOffset where
  lateral : ℚ
  longitudinal : ℚ
  vertical : ℚ
deriving DecidableEq

/-- Embeds `drone_tracker::convoy::ConvoyManager` state (lines 33-44).  The
offsets `HashMap` is an association list rebuilt from scratch by
`recalculate_offsets`. -/
structure ConvoyManager where
  formation : Formation
  leader : Option String
  order : List String
  offsets : List (String × FormationOffset)
  spacing : ℚ
deriving DecidableEq

/-- Embeds `ConvoyManager::new` (lines 59-67): Line formation, no leader,
empty order and offsets, spacing 50 m. -/
def ConvoyManager.new : ConvoyManager :=
  { formation := Formation.Line, leader := none, order := []
    offsets := [], spacing := 50 }

/-- The per-index offset computed by the `match formation` arm of
`ConvoyManager::recalculate_offsets` (lines 127-165) for follower index
`i > 0`, with `n = order.len()`. -/
def formationOffset (ops : FloatFns) (formation : Formation) (spacing : ℚ)
    (i n : ℕ) : FormationOffset :=
  match formation with
  | Formation.Line =>
      { lateral := 0, longitudinal := spacing * i, vertical := 0 }
  | Formation.Vee =>
      let side : ℚ := if i % 2 = 1 then 1 else -1
      let row : ℚ := ((i + 1) / 2 : ℕ)
      { lateral := side * spacing * row * (7/10)
        longitudinal := spacing * row, vertical := 0 }
  | Formation.Diamond =>
      let angle := ((i : ℚ) - 1) * (ops.pi * 2 / 4)
      { lateral := spacing * ops.sin angle
        longitudinal := spacing * ops.cos angle, vertical := 0 }
  | Formation.Echelon =>
      { lateral := spacing * i * (1/2)
        longitudinal := spacing * i, vertical := 0 }
  | Formation.Column =>
      { lateral := 0, longitudinal := spacing * i, vertical := 0 }
  | Formation.Spread =>
      { lateral := spacing * ((i : ℚ) - (n : ℚ) / 2)
        longitudinal := 0, vertical := 0 }

/-- Embeds `ConvoyManager::recalculate_offsets` (lines 110-169): clear the
offsets map, then give index 0 (the leader) a zero offset and each follower
the formation offset for its index. -/
def ConvoyManager.recalculate_offsets (ops : FloatFns) (c : ConvoyManager) :
    ConvoyManager :=
  let offsets := (c.order.enum.map (fun p =>
    if p.1 = 0 then
      (p.2, ({ lateral := 0, longitudinal := 0, vertical := 0 } :
        FormationOffset))
    else
      (p.2, formationOffset ops c.formation c.spacing p.1 c.order.length)))
  { c with offsets := offsets }

/-- Embeds `ConvoyManager::set_formation` (lines 70-74). -/
def ConvoyManager.set_formation (ops : FloatFns) (c : ConvoyManager)
    (formation : Formation) : ConvoyManager :=
  ConvoyManager.recalculate_offsets ops { c with formation := formation }

/-- Embeds `ConvoyManager::set_order` (lines 93-96). -/
def ConvoyManager.set_order (ops : FloatFns) (c : ConvoyManager)
    (order : List String) : ConvoyManager :=
  ConvoyManager.recalculate_offsets ops { c with order := order }

/-- Embeds `ConvoyManager::set_spacing` (lines 103-107).  The assignment
`self.spacing = meters` is commented out in the source; the method only
reruns `recalculate_offsets`. -/
def ConvoyManager.set_spacing (ops : FloatFns) (c : ConvoyManager)
    (_meters : ℚ) : ConvoyManager :=
  ConvoyManager.recalculate_offsets ops c

/-- Embeds `ConvoyManager::get_offset` (lines 202-204). -/
def ConvoyManager.get_offset (c : ConvoyManager) (drone_id : String) :
    Option FormationOffset :=
  c.offsets.lookup drone_id

/-- Embeds `ConvoyManager::get_target_position` (lines 172-199). -/
def ConvoyManager.get_target_position (ops : FloatFns) (c : ConvoyManager)
    (drone_id : String) (leader_position : GeoPosition)
    (leader_heading : ℚ) : Option GeoPosition :=
  match c.offsets.lookup drone_id with
  | none => none
  | some offset =>
    let heading_rad := toRadians ops leader_heading
    let rotated_lat := offset.longitudinal * ops.cos heading_rad
        - offset.lateral * ops.sin heading_rad
    let rotated_lng := offset.longitudinal * ops.sin heading_rad
        + offset.lateral * ops.cos heading_rad
    let lat_offset := rotated_lat / 111000
    let lng_offset := rotated_lng
        / (111000 * ops.cos (toRadians ops leader_position.latitude))
    some (GeoPosition.new
      (leader_position.latitude - lat_offset)
      (leader_position.longitude + lng_offset)
      (leader_position.altitude + offset.vertical))

end Convoy

namespace Cv

/-- Embeds `drone_core::HaloColor`. -/
structure HaloColor where
  r : ℕ
  g : ℕ
  b : ℕ
deriving DecidableEq

/-- Embeds `drone_core::DetectedHalo` (`drone-core/src/lib.rs` lines 462-469);
`i32` coordinates are `ℤ`. -/
structure DetectedHalo where
  center_x : ℤ
  center_y : ℤ
  radius : ℤ
  color : HaloColor
  confidence : ℚ
deriving DecidableEq

/-- A red halo detection, as built by `DetectedHalo::new` with the default
color and the confidence used in the tracker tests. -/
def DetectedHalo.mk' (x y radius : ℤ) : DetectedHalo :=
  { center_x := x, center_y := y, radius := radius
    color := ⟨255, 0, 0⟩, confidence := 1 }

/-- Embeds `drone_cv::config::TrackingConfig` (`drone-cv/src/config.rs` lines
67-80). -/
structure TrackingConfig where
  max_frames_to_skip : ℕ
  iou_threshold : ℚ
  kalman_process_noise : ℚ
  kalman_measurement_noise : ℚ
  max_tracks : ℕ
  min_frames_to_confirm : ℕ
deriving DecidableEq

/-- Embeds `TrackingConfig::default` (lines 82-93). -/
def TrackingConfig.mkDefault : TrackingConfig :=
  { max_frames_to_skip := 10
    iou_threshold := 3/10
    kalman_process_noise := 1/100
    kalman_measurement_noise := 1/10
    max_tracks := 50
    min_frames_to_confirm := 3 }

/-- Embeds the `tracking` section of `drone_cv::config::CvConfig`; the halo
and rendering sections are never read by `tracker.rs` and are omitted. -/
structure CvConfig where
  tracking : TrackingConfig
deriving DecidableEq

/-- Embeds `CvConfig::default`, restricted to the tracking section. -/
def CvConfig.mkDefault : CvConfig :=
  { tracking := TrackingConfig.mkDefault }

/-- Embeds `drone_cv::kalman::KalmanTracker` (`drone-cv/src/kalman.rs` lines
16-31): state `[x, y, vx, vy]` and a 4×4 covariance matrix. -/
structure KalmanTracker where
  state : Fin 4 → ℚ
  covariance : Fin 4 → Fin 4 → ℚ
  process_noise : ℚ
  measurement_noise : ℚ
  dt : ℚ
  initialized : Bool
  update_count : ℕ

/-- The accumulation `for k in 0..4 {{ acc += g k }}` starting from `0.0`. -/
def sum4 (g : Fin 4 → ℚ) : ℚ :=
  0 + g 0 + g 1 + g 2 + g 3

/-- Embeds `KalmanTracker::initial_covariance` (lines 233-240): 1000·I. -/
def initialCovariance : Fin 4 → Fin 4 → ℚ :=
  fun i j => if i = j then 1000 else 0

/-- Embeds `KalmanTracker::new` (lines 35-45); `dt = 1/30` (the `f64` value
`1.0 / 30.0` rounds this, but no branch or output below depends on the
rounding). -/
def KalmanTracker.new (process_noise measurement_noise : ℚ) : KalmanTracker :=
  { state := ![0, 0, 0, 0]
    covariance := initialCovariance
    process_noise := process_noise
    measurement_noise := measurement_noise
    dt := 1/30
    initialized := false
    update_count := 0 }

/-- Embeds `KalmanTracker::initialize` (lines 48-54): position `(x, y)`, zero
velocity, fresh covariance. -/
def KalmanTracker.initWith (k : KalmanTracker) (x y : ℚ) : KalmanTracker :=
  { k with
    state := ![x, y, 0, 0]
    covariance := initialCovariance
    initialized := true
    update_count := 1 }

/-- Embeds `KalmanTracker::transition_matrix` (lines 208-215). -/
def KalmanTracker.transition_matrix (k : KalmanTracker) :
    Fin 4 → Fin 4 → ℚ :=
  ![![1, 0, k.dt, 0],
    ![0, 1, 0, k.dt],
    ![0, 0, 1, 0],
    ![0, 0, 0, 1]]

/-- Embeds `KalmanTracker::process_noise_matrix` (lines 218-230). -/
def KalmanTracker.process_noise_matrix (k : KalmanTracker) :
    Fin 4 → Fin 4 → ℚ :=
  let dt2 := k.dt * k.dt
  let dt3 := dt2 * k.dt
  let dt4 := dt2 * dt2
  let q := k.process_noise
  ![![dt4 / 4 * q, 0, dt3 / 2 * q, 0],
    ![0, dt4 / 4 * q, 0, dt3 / 2 * q],
    ![dt3 / 2 * q, 0, dt2 * q, 0],
    ![0, dt3 / 2 * q, 0, dt2 * q]]

/-- Embeds `KalmanTracker::predict` (lines 57-100): advance the position by
the velocity, then `P := F·P·Fᵀ + Q`.  Returns the mutated filter and the
predicted position. -/
def KalmanTracker.predict (k : KalmanTracker) : KalmanTracker × (ℚ × ℚ) :=
  if k.initialized = false then (k, (0, 0))
  else
    let predicted_x := k.state 0 + k.state 2 * k.dt
    let predicted_y := k.state 1 + k.state 3 * k.dt
    let state' := ![predicted_x, predicted_y, k.state 2, k.state 3]
    let f := k.transition_matrix
    let q := k.process_noise_matrix
    let fp := fun i j => sum4 (fun m => f i m * k.covariance m j)
    let fpft := fun i j => sum4 (fun m => fp i m * f j m)
    let cov' := fun i j => fpft i j + q i j
    ({ k with state := state', covariance := cov' },
     (predicted_x, predicted_y))

/-- Embeds `KalmanTracker::update` (lines 103-175): predict, then apply the
Kalman gain; the `det.abs() < 1e-10` singularity guard returns the
measurement after the predict step has already mutated the filter, exactly as
in the source. -/
def KalmanTracker.update (k : KalmanTracker) (measured_x measured_y : ℚ) :
    KalmanTracker × (ℚ × ℚ) :=
  if k.initialized = false then
    (k.initWith measured_x measured_y, (measured_x, measured_y))
  else
    let k := (k.predict).1
    let residual_x := measured_x - k.state 0
    let residual_y := measured_y - k.state 1
    let s00 := k.covariance 0 0 + k.measurement_noise
    let s01 := k.covariance 0 1
    let s10 := k.covariance 1 0
    let s11 := k.covariance 1 1 + k.measurement_noise
    let det := s00 * s11 - s01 * s10
    if |det| < 1 / 10000000000 then (k, (measured_x, measured_y))
    else
      let si00 := s11 / det
      let si01 := -s01 / det
      let si10 := -s10 / det
      let si11 := s00 / det
      let kg : Fin 4 → Fin 2 → ℚ :=
        ![![k.covariance 0 0 * si00 + k.covariance 0 1 * si10,
           k.covariance 0 0 * si01 + k.covariance 0 1 * si11],
          ![k.covariance 1 0 * si00 + k.covariance 1 1 * si10,
           k.covariance 1 0 * si01 + k.covariance 1 1 * si11],
          ![k.covariance 2 0 * si00 + k.covariance 2 1 * si10,
           k.covariance 2 0 * si01 + k.covariance 2 1 * si11],
          ![k.covariance 3 0 * si00 + k.covariance 3 1 * si10,
           k.covariance 3 0 * si01 + k.covariance 3 1 * si11]]
      let state' :=
        ![k.state 0 + (kg 0 0 * residual_x + kg 0 1 * residual_y),
          k.state 1 + (kg 1 0 * residual_x + kg 1 1 * residual_y),
          k.state 2 + (kg 2 0 * residual_x + kg 2 1 * residual_y),
          k.state 3 + (kg 3 0 * residual_x + kg 3 1 * residual_y)]
      let i_kh : Fin 4 → Fin 4 → ℚ :=
        ![![1 - kg 0 0, -(kg 0 1), 0, 0],
          ![-(kg 1 0), 1 - kg 1 1, 0, 0],
          ![-(kg 2 0), -(kg 2 1), 1, 0],
          ![-(kg 3 0), -(kg 3 1), 0, 1]]
      let old_cov := k.covariance
      let cov' := fun i j => sum4 (fun m => i_kh i m * old_cov m j)
      let k' := { k with
        state := state'
        covariance := cov'
        update_count := k.update_count + 1 }
      (k', (state' 0, state' 1))

/-- Embeds `KalmanTracker::position` (lines 178-180). -/
def KalmanTracker.position (k : KalmanTracker) : ℚ × ℚ :=
  (k.state 0, k.state 1)

/-- Embeds `drone_cv::tracker::TrackState` (`drone-cv/src/tracker.rs` lines
27-35). -/
structure TrackState where
  tracking_id : ℕ
  kalman : KalmanTracker
  last_detection : DetectedHalo
  frames_since_detection : ℕ
  consecutive_detections : ℕ
  confidence : ℚ
  confirmed : Bool

/-- Embeds `drone_cv::tracker::DroneTracker` state (lines 13-23).  The track
`HashMap` is an association list whose order models the `HashMap`'s
(unspecified) iteration order; `associate_detections` below takes the list in
that order, exactly as `self.tracks.keys().copied().collect()` does. -/
structure DroneTracker where
  config : CvConfig
  tracks : List (ℕ × TrackState)
  next_id : ℕ
  drone_associations : List (ℕ × String)
  frame_count : ℕ

/-- Embeds `DroneTracker::new` (lines 39-47). -/
def DroneTracker.new (config : CvConfig) : DroneTracker :=
  { config := config, tracks := [], next_id := 1
    drone_associations := [], frame_count := 0 }

/-- Embeds `DroneTracker::calculate_circle_iou` (lines 209-244). -/
def calculate_circle_iou (ops : FloatFns) (x1 y1 r1 x2 y2 r2 : ℤ) : ℚ :=
  let dx : ℚ := ((x2 - x1 : ℤ) : ℚ)
  let dy : ℚ := ((y2 - y1 : ℤ) : ℚ)
  let d := ops.sqrt (dx * dx + dy * dy)
  let r1 : ℚ := (r1 : ℚ)
  let r2 : ℚ := (r2 : ℚ)
  if r1 + r2 ≤ d then 0
  else if d ≤ |r1 - r2| then
    let min_area := ops.pi * (min r1 r2) ^ 2
    let max_area := ops.pi * (max r1 r2) ^ 2
    min_area / max_area
  else
    let part1 := r1 ^ 2 * ops.acos ((d ^ 2 + r1 ^ 2 - r2 ^ 2) / (2 * d * r1))
    let part2 := r2 ^ 2 * ops.acos ((d ^ 2 + r2 ^ 2 - r1 ^ 2) / (2 * d * r2))
    let part3 := (1/2) * ops.sqrt
        ((-d + r1 + r2) * (d + r1 - r2) * (d - r1 + r2) * (d + r1 + r2))
    let intersection := part1 + part2 - part3
    let union := ops.pi * (r1 ^ 2 + r2 ^ 2) - intersection
    if 0 < union then intersection / union else 0

/-- Strict `<` on costs where `none` models the `f64::MAX` sentinel the source
initialises the cost matrix with.  Every cost the source actually writes is
`1.0 - iou ≤ 1.0 < f64::MAX`, so the sentinel behaves exactly like a top
element. -/
def ltCost : Option ℚ → Option ℚ → Bool
  | some x, some y => decide (x < y)
  | some _, none => true
  | none, _ => false

/-- The cost matrix built by `associate_detections` (lines 146-166): row order
follows the track-id list, `none` for pairs whose IoU does not exceed the
threshold. -/
def costMatrix (ops : FloatFns) (cfg : CvConfig)
    (tracks : List (ℕ × TrackState)) (detections : List DetectedHalo) :
    List (List (Option ℚ)) :=
  (tracks.map Prod.fst).map (fun track_id =>
    match tracks.lookup track_id with
    | none => detections.map (fun _ => none)
    | some track =>
      let p := track.kalman.position
      let pred_radius := track.last_detection.radius
      detections.map (fun detection =>
        let iou := calculate_circle_iou ops (truncQ p.1) (truncQ p.2)
            pred_radius detection.center_x detection.center_y detection.radius
        if cfg.tracking.iou_threshold < iou then some (1 - iou) else none))

/-- The minimum-cost scan of the greedy loop (lines 174-193): row-major scan
over unassigned (track, detection) indices, keeping the first strict
improvement — so ties go to the earliest scan position. -/
def findMinCost (cost : List (List (Option ℚ))) (aT aD : List Bool) :
    Option ℚ × ℕ × ℕ :=
  (List.range aT.length).foldl (fun acc t =>
    if aT.getD t false then acc
    else
      (List.range aD.length).foldl (fun acc2 d =>
        if aD.getD d false then acc2
        else
          let c := (cost.getD t []).getD d none
          if ltCost c acc2.1 then (c, t, d) else acc2) acc)
    (none, 0, 0)

/-- The greedy commit loop of `associate_detections` (lines 168-202), fuelled
by the track count: each iteration either commits the minimum-cost pair or
stops when only `f64::MAX` entries remain.  At most one pair per track can be
committed, so `track_count` iterations exhaust the loop. -/
def greedyAssign : ℕ → List (List (Option ℚ)) → List ℕ → List Bool →
    List Bool → List (ℕ × ℕ) → List (ℕ × ℕ)
  | 0, _, _, _, _, acc => acc
  | fuel + 1, cost, track_ids, aT, aD, acc =>
    let m := findMinCost cost aT aD
    match m.1 with
    | none => acc
    | some _ =>
      greedyAssign fuel cost track_ids (aT.set m.2.1 true) (aD.set m.2.2 true)
        (acc ++ [(track_ids.getD m.2.1 0, m.2.2)])

/-- Embeds `DroneTracker::associate_detections` (lines 137-206): the returned
association is a `tracking_id ↦ detection index` map, here in commit order. -/
def associate_detections (ops : FloatFns) (cfg : CvConfig)
    (tracks : List (ℕ × TrackState)) (detections : List DetectedHalo) :
    List (ℕ × ℕ) :=
  if tracks.isEmpty ∨ detections.isEmpty then []
  else
    let track_ids := tracks.map Prod.fst
    let cost := costMatrix ops cfg tracks detections
    greedyAssign track_ids.length cost track_ids
      (List.replicate track_ids.length false)
      (List.replicate detections.length false) []

/-- Embeds `DroneTracker::create_track` (lines 247-270): assign the next id,
seed the Kalman filter at the detection centre and start the track with
`consecutive_detections = 1`, `frames_since_detection = 0`, unconfirmed. -/
def DroneTracker.create_track (s : DroneTracker) (detection : DetectedHalo) :
    DroneTracker :=
  let tracking_id := s.next_id
  let kalman := (KalmanTracker.new s.config.tracking.kalman_process_noise
      s.config.tracking.kalman_measurement_noise).initWith
      (detection.center_x : ℚ) (detection.center_y : ℚ)
  let track : TrackState :=
    { tracking_id := tracking_id
      kalman := kalman
      last_detection := detection
      frames_since_detection := 0
      consecutive_detections := 1
      confidence := detection.confidence
      confirmed := false }
  { s with next_id := tracking_id + 1
           tracks := s.tracks ++ [(tracking_id, track)] }

/-- Embeds `drone_cv::ActiveTrack` (`drone-cv/src/lib.rs` lines 80-88). -/
structure ActiveTrack where
  tracking_id : ℕ
  drone_id : Option String
  kalman : KalmanTracker
  last_detection : DetectedHalo
  frames_since_seen : ℕ
  confidence : ℚ
  estimated_position : Option DroneCore.GeoPosition

/-- Embeds `DroneTracker::update` (lines 57-134), steps 1-5 in source order:
predict all tracks, associate, update matched tracks (confirming at
`min_frames_to_confirm`), create tracks for unmatched detections, drop stale
tracks, then bump `frames_since_detection` and zero `consecutive_detections`
for every track the association does not contain — which includes the tracks
just created in step 4.  Returns the confirmed tracks as `ActiveTrack`s. -/
def DroneTracker.update (ops : FloatFns) (s : DroneTracker)
    (detections : List DetectedHalo) : DroneTracker × List ActiveTrack :=
  let s := { s with frame_count := s.frame_count + 1 }
  -- Step 1: predict positions for all existing tracks.
  let s := { s with tracks := s.tracks.map (fun (p : ℕ × TrackState) =>
    (p.1, { p.2 with kalman := (p.2.kalman.predict).1 })) }
  -- Step 2: associate detections with tracks.
  let associations := associate_detections ops s.config s.tracks detections
  -- Step 3: update matched tracks (each track id occurs at most once in the
  -- association, so per-entry mutation is a map with lookup).
  let s := { s with tracks := s.tracks.map (fun (p : ℕ × TrackState) =>
    match associations.lookup p.1 with
    | none => p
    | some detection_idx =>
      match detections.get? detection_idx with
      | none => p
      | some detection =>
        let track := p.2
        let track := { track with
          kalman := (track.kalman.update (detection.center_x : ℚ)
            (detection.center_y : ℚ)).1
          last_detection := detection
          frames_since_detection := 0
          consecutive_detections := track.consecutive_detections + 1
          confidence := detection.confidence }
        let track :=
          if track.confirmed = false ∧
              s.config.tracking.min_frames_to_confirm ≤
                track.consecutive_detections then
            { track with confirmed := true }
          else track
        (p.1, track)) }
  -- Step 4: create new tracks for unmatched detections.
  let matched_detections := associations.map Prod.snd
  let s := (detections.enum).foldl (fun acc p =>
    if matched_detections.contains p.1 = false ∧
        acc.tracks.length < acc.config.tracking.max_tracks then
      acc.create_track p.2
    else acc) s
  -- Step 5: remove stale tracks, then bump the unmatched ones.
  let max_skip := s.config.tracking.max_frames_to_skip
  let stale_ids := (s.tracks.filter (fun (p : ℕ × TrackState) =>
    associations.lookup p.1 = none ∧
      max_skip ≤ p.2.frames_since_detection)).map Prod.fst
  let s := { s with
    tracks := s.tracks.filter (fun (p : ℕ × TrackState) => stale_ids.contains p.1 = false)
    drone_associations := s.drone_associations.filter
      (fun (p : ℕ × String) => stale_ids.contains p.1 = false) }
  let s := { s with tracks := s.tracks.map (fun (p : ℕ × TrackState) =>
    if associations.lookup p.1 = none then
      (p.1, { p.2 with frames_since_detection := p.2.frames_since_detection + 1
                       consecutive_detections := 0 })
    else p) }
  let active := (s.tracks.filter (fun p => p.2.confirmed)).map (fun p =>
    ({ tracking_id := p.2.tracking_id
       drone_id := s.drone_associations.lookup p.1
       kalman := p.2.kalman
       last_detection := p.2.last_detection
       frames_since_seen := p.2.frames_since_detection
       confidence := p.2.confidence
       estimated_position := none } : ActiveTrack))
  (s, active)

/-- Embeds `DroneTracker::active_count` (lines 279-281). -/
def DroneTracker.active_count (s : DroneTracker) : ℕ :=
  (s.tracks.filter (fun p => p.2.confirmed)).length

/-- Embeds `DroneTracker::total_count` (lines 284-286). -/
def DroneTracker.total_count (s : DroneTracker) : ℕ :=
  s.tracks.length

end Cv

namespace Trk

open DroneCore

/-- Lookup after `listInsert` at the inserted key. -/
theorem lookup_listInsert_self {β : Type} (l : List (String × β)) (k : String)
    (v : β) : (listInsert l k v).lookup k = some v := by
  induction l with
  | nil => simp [listInsert, List.lookup]
  | cons hd tl ih =>
      by_cases h : hd.1 = k
      · simp [listInsert, h, List.lookup]
      · have hb : (k == hd.1) = false := by
          simp only [beq_eq_false_iff_ne, ne_eq]
          exact fun he => h he.symm
        simp [listInsert, h, List.lookup, hb, ih]

/-- Lookup after `listInsert` at another key. -/
theorem lookup_listInsert_ne {β : Type} (l : List (String × β)) (k k' : String)
    (v : β) (h : k' ≠ k) :
    (listInsert l k v).lookup k' = l.lookup k' := by
  have hb : (k' == k) = false := by
    simp only [beq_eq_false_iff_ne, ne_eq]
    exact h
  induction l with
  | nil => simp [listInsert, List.lookup, hb]
  | cons hd tl ih =>
      by_cases hh : hd.1 = k
      · subst hh
        simp [listInsert, List.lookup, hb]
      · simp [listInsert, hh, List.lookup, ih]

/-- Folding `listInsert` with a fixed value: keys not in the list keep their
binding. -/
theorem lookup_foldl_listInsert_not_mem {β : Type} (l : List String)
    (acc : List (String × β)) (v : β) (k : String) (h : k ∉ l) :
    ((l.foldl (fun a d => listInsert a d v) acc).lookup k) = acc.lookup k := by
  induction l generalizing acc with
  | nil => simp
  | cons hd tl ih =>
      simp only [List.foldl_cons]
      have hk : k ∉ tl := fun hm => h (List.mem_cons_of_mem _ hm)
      have hne : k ≠ hd := fun he => h (he ▸ List.mem_cons_self hd tl)
      rw [ih _ hk, lookup_listInsert_ne _ _ _ _ hne]

/-- Folding `listInsert` with a fixed value: every key of the list maps to
that value afterwards. -/
theorem lookup_foldl_listInsert_mem {β : Type} (l : List String)
    (acc : List (String × β)) (v : β) (k : String) (h : k ∈ l) :
    ((l.foldl (fun a d => listInsert a d v) acc).lookup k) = some v := by
  induction l generalizing acc with
  | nil => cases h
  | cons hd tl ih =>
      simp only [List.foldl_cons]
      by_cases hm : k ∈ tl
      · exact ih _ hm
      · have : k = hd := by
          rcases List.mem_cons.mp h with h1 | h2
          · exact h1
          · exact absurd h2 hm
        subst this
        rw [lookup_foldl_listInsert_not_mem _ _ _ _ hm, lookup_listInsert_self]

end Trk

namespace DroneCore

/-- Bounds of the Rust `f64` remainder with positive divisor: the result has
magnitude below the divisor and the sign of the dividend. -/
theorem rustRem_bounds (x : ℚ) : -360 < rustRem x 360 ∧ rustRem x 360 < 360 := by
  unfold rustRem truncQ
  by_cases h : 0 ≤ x / 360
  · simp only [h, if_pos]
    constructor
    · have hf : (⌊x / 360⌋ : ℚ) ≤ x / 360 := Int.floor_le _
      nlinarith
    · have hf : x / 360 - 1 < (⌊x / 360⌋ : ℚ) := Int.sub_one_lt_floor _
      nlinarith
  · simp only [h, if_neg, not_false_iff]
    constructor
    · have hc : (⌈x / 360⌉ : ℚ) < x / 360 + 1 := Int.ceil_lt_add_one _
      nlinarith
    · have hc : x / 360 ≤ (⌈x / 360⌉ : ℚ) := Int.le_ceil _
      nlinarith

/-- For a non-negative dividend the Rust remainder is the floor-based
reduction mod 360, hence lands in `[0, 360)`. -/
theorem rustRem_nonneg (x : ℚ) (h : 0 ≤ x) :
    0 ≤ rustRem x 360 ∧ rustRem x 360 < 360 := by
  have h360 : (0:ℚ) ≤ x / 360 := by positivity
  unfold rustRem truncQ
  simp only [h360, if_pos]
  constructor
  · have hf : (⌊x / 360⌋ : ℚ) ≤ x / 360 := Int.floor_le _
    nlinarith
  · have hf : x / 360 - 1 < (⌊x / 360⌋ : ℚ) := Int.sub_one_lt_floor _
    nlinarith

/-- CLAIM C9 (counterexample).  `Telemetry::with_values` with heading `-90`
stores heading `-90`, which does not lie in `[0, 360)`: the Rust `%` keeps the
sign of the dividend, so negative headings are not reduced into `[0, 360)` as
the claim states. -/
theorem with_values_neg_heading_not_reduced :
    (Telemetry.with_values 100 100 100 0 (-90)).heading = -90 ∧
      ¬(0 ≤ (Telemetry.with_values 100 100 100 0 (-90)).heading) := by
  have h : (Telemetry.with_values 100 100 100 0 (-90)).heading =
      rustRem (-90) 360 := rfl
  have ht : truncQ ((-90 : ℚ) / 360) = 0 := by
    unfold truncQ
    norm_num
  have : rustRem (-90) 360 = -90 := by
    unfold rustRem
    rw [ht]
    norm_num
  constructor
  · rw [h, this]
  · rw [h, this]
    norm_num

/-- CLAIM C9 (amended).  `Telemetry::with_values` clamps every percentage to
at most 100 (values at most 100 pass through, larger ones become 100), and
stores `heading % 360.0` with Rust `f64` remainder semantics: the stored
heading always lies in `(-360, 360)`, differs from the input heading by an
integer multiple of 360, and for non-negative inputs it is the reduction
mod 360 into `[0, 360)`. -/
theorem with_values_clamps_and_reduces (battery fuel health : ℕ)
    (speed heading : ℚ) :
    (Telemetry.with_values battery fuel health speed heading).battery_level
        ≤ 100 ∧
    (Telemetry.with_values battery fuel health speed heading).fuel_level
        ≤ 100 ∧
    (Telemetry.with_values battery fuel health speed heading).system_health
        ≤ 100 ∧
    (battery ≤ 100 →
      (Telemetry.with_values battery fuel health speed heading).battery_level
        = battery) ∧
    (100 < battery →
      (Telemetry.with_values battery fuel health speed heading).battery_level
        = 100) ∧
    (-360 <
      (Telemetry.with_values battery fuel health speed heading).heading) ∧
    ((Telemetry.with_values battery fuel health speed heading).heading
        < 360) ∧
    (∃ k : ℤ, heading -
      (Telemetry.with_values battery fuel health speed heading).heading
        = 360 * k) ∧
    (0 ≤ heading →
      0 ≤ (Telemetry.with_values battery fuel health speed heading).heading) := by
  refine ⟨?_, ?_, ?_, ?_, ?_, ?_, ?_, ?_, ?_⟩
  · exact min_le_right _ _
  · exact min_le_right _ _
  · exact min_le_right _ _
  · intro h
    simp [Telemetry.with_values, min_eq_left h]
  · intro h
    simp [Telemetry.with_values, min_eq_right (le_of_lt h)]
  · exact (rustRem_bounds heading).1
  · exact (rustRem_bounds heading).2
  · refine ⟨truncQ (heading / 360), ?_⟩
    show heading - rustRem heading 360 = 360 * (truncQ (heading / 360) : ℚ)
    unfold rustRem
    ring
  · intro h
    exact (rustRem_nonneg heading h).1

/-- Witness for C9's amended theorem at battery 150, fuel 40, health 100,
speed 0, heading 725: the hypotheses `battery ≤ 100` (for fuel clamp-through,
applied with 40), `100 < battery` (applied with 150) and `0 ≤ heading`
(applied with 725) are discharged concretely. -/
theorem with_values_clamps_witness :
    (Telemetry.with_values 150 40 100 0 725).battery_level = 100 ∧
      (0:ℚ) ≤ 725 ∧
      0 ≤ (Telemetry.with_values 150 40 100 0 725).heading := by
  refine ⟨?_, by norm_num, ?_⟩
  · exact (with_values_clamps_and_reduces 150 40 100 0 725).2.2.2.2.1
      (by norm_num)
  · exact (with_values_clamps_and_reduces 150 40 100 0 725).2.2.2.2.2.2.2.2
      (by norm_num)

end DroneCore

namespace Trk

open DroneCore

/-- A tracked drone whose fuel (20%) is below the default warning threshold
(25%) but not below the default critical threshold (10%), battery full. -/
def fuelLowDrone : TrackedDrone :=
  TrackedDrone.new
    { Drone.new "REAPER-01" "Alpha Lead" with
        telemetry := { Telemetry.mkDefault with fuel_level := 20 } } 0

/-- A tracked drone whose fuel (5%) is below the default critical
threshold (10%). -/
def fuelCriticalDrone : TrackedDrone :=
  TrackedDrone.new
    { Drone.new "REAPER-01" "Alpha Lead" with
        telemetry := { Telemetry.mkDefault with fuel_level := 5 } } 0

/-- A tracked drone whose battery (20%) is below the default battery warning
threshold (30%) but not below the critical one (15%). -/
def batteryLowDrone : TrackedDrone :=
  TrackedDrone.new
    { Drone.new "REAPER-01" "Alpha Lead" with
        telemetry := { Telemetry.mkDefault with battery_level := 20 } } 0

/-- CLAIM C2.  With the default thresholds, a drone whose fuel is between the
critical and warning thresholds produces NO alert at all from `check_alerts`
(the source has no warning-fuel branch, although `fuel_warning_threshold`
exists in the config and the battery side has the analogous branch) — and in
general `check_alerts` never emits a WARNING-severity FUEL_LOW alert, while
the analogous battery state does emit a WARNING BATTERY_LOW alert. -/
theorem check_alerts_no_fuel_warning :
    (TrackerConfig.mkDefault.fuel_critical_threshold ≤ 20 ∧
      20 < TrackerConfig.mkDefault.fuel_warning_threshold) ∧
    DroneTracker.check_alerts TrackerConfig.mkDefault fuelLowDrone = [] ∧
    (DroneTracker.check_alerts TrackerConfig.mkDefault batteryLowDrone).map
        (fun a => (a.severity, a.alert_type)) =
      [(AlertSeverity.Warning, AlertType.BatteryLow)] ∧
    (∀ cfg tr a, a ∈ DroneTracker.check_alerts cfg tr →
      a.alert_type = AlertType.FuelLow →
      a.severity = AlertSeverity.Critical) := by
  refine ⟨by decide, by decide, by decide, ?_⟩
  intro cfg tr a hmem hft
  unfold DroneTracker.check_alerts at hmem
  simp only at hmem
  rcases List.mem_append.mp hmem with h | h
  · split_ifs at h with h1 h2
    · simp only [List.mem_singleton] at h
      subst h
      simp [Alert.new, Alert.for_drone] at hft
    · simp only [List.mem_singleton] at h
      subst h
      simp [Alert.new, Alert.for_drone] at hft
    · cases h
  · split_ifs at h with h1
    · simp only [List.mem_singleton] at h
      subst h
      rfl
    · cases h

/-- Witness for C2's theorem: the critical-fuel drone does produce a FUEL_LOW
alert, and the theorem's universal part applies to it, giving severity
CRITICAL. -/
theorem check_alerts_no_fuel_warning_witness :
    ∃ a ∈ DroneTracker.check_alerts TrackerConfig.mkDefault fuelCriticalDrone,
      a.severity = AlertSeverity.Critical := by
  refine ⟨(Alert.new AlertSeverity.Critical AlertType.FuelLow
      ("Fuel critical: " ++ toString (5:ℕ) ++ "%")).for_drone "REAPER-01",
    ?_, ?_⟩
  · decide
  · exact check_alerts_no_fuel_warning.2.2.2 TrackerConfig.mkDefault
      fuelCriticalDrone _ (by decide) (by decide)

/-- A previously-tracked drone state with non-trivial progress: waypoint
index 2, one history sample. -/
def trackedWithProgress : TrackedDrone :=
  { TrackedDrone.new (Drone.new "A" "Alpha") 0 with
      waypoint_index := 2
      waypoint_progress := 1/2
      position_history := [(5, GeoPosition.new 1 2 3)] }

/-- A tracker state already containing drone "A" with progress. -/
def trackerWithA : DroneTracker :=
  { config := TrackerConfig.mkDefault
    drones := [("A", trackedWithProgress)]
    mission := none }

/-- CLAIM C5 (counterexample).  Registering drone "A" again (same id) does NOT
leave the existing tracked state unchanged: the waypoint index drops from 2
to 0 and the position history from 1 sample to none, because `register_drone`
does an unconditional map insert of a fresh `TrackedDrone`. -/
theorem register_drone_overwrites :
    ((trackerWithA.register_drone (Drone.new "A" "Alpha") 7).drones.lookup
        "A").map (fun t => (t.waypoint_index, t.position_history.length)) =
      some (0, 0) ∧
    (trackerWithA.drones.lookup "A").map
        (fun t => (t.waypoint_index, t.position_history.length)) =
      some (2, 1) := by
  constructor <;> decide

/-- CLAIM C5 (amended).  `register_drone` unconditionally inserts a fresh
`TrackedDrone::new` entry for the drone's id — overwriting (resetting) any
existing tracked state for that id — while entries for every other id, the
config and the mission slot are unchanged. -/
theorem register_drone_inserts_fresh (s : DroneTracker) (d : Drone) (now : ℤ) :
    (s.register_drone d now).drones.lookup d.id =
        some (TrackedDrone.new d now) ∧
    (∀ k, k ≠ d.id →
      (s.register_drone d now).drones.lookup k = s.drones.lookup k) ∧
    (s.register_drone d now).config = s.config ∧
    (s.register_drone d now).mission = s.mission := by
  refine ⟨?_, ?_, rfl, rfl⟩
  · exact lookup_listInsert_self _ _ _
  · intro k hk
    exact lookup_listInsert_ne _ _ _ _ hk

/-- Witness for C5's amended theorem: registering a new drone "B" into
`trackerWithA` stores a fresh entry for "B" and leaves the entry of
"A" (≠ "B") untouched. -/
theorem register_drone_inserts_fresh_witness :
    (trackerWithA.register_drone (Drone.new "B" "Bravo") 7).drones.lookup "B" =
        some (TrackedDrone.new (Drone.new "B" "Bravo") 7) ∧
    (trackerWithA.register_drone (Drone.new "B" "Bravo") 7).drones.lookup "A" =
        trackerWithA.drones.lookup "A" :=
  ⟨(register_drone_inserts_fresh trackerWithA (Drone.new "B" "Bravo") 7).1,
   (register_drone_inserts_fresh trackerWithA (Drone.new "B" "Bravo") 7).2.1
      "A" (by decide)⟩

/-- A mission that assigns drone "A" (waypoint list irrelevant here). -/
def missionAssigningA : Mission :=
  { name := "OP-1", status := MissionStatus.Planning
    waypoints := [], assigned_drones := ["A"] }

/-- CLAIM C3 (counterexample).  After `DroneTracker::set_mission`, drone "A"
— assigned to the mission — still has waypoint index 2 (its previous value),
not 0: the tracking engine's `set_mission` only replaces the mission slot and
never touches the per-drone tracked state. -/
theorem set_mission_does_not_reset :
    "A" ∈ missionAssigningA.assigned_drones ∧
    ((trackerWithA.set_mission missionAssigningA).drones.lookup "A").map
        (fun t => t.waypoint_index) = some 2 ∧
    (2:ℕ) ≠ 0 ∧
    ((trackerWithA.set_mission missionAssigningA).drones.lookup "A").map
        (fun t => t.waypoint_progress) = some (1/2) ∧
    (1/2 : ℚ) ≠ 0 := by
  refine ⟨by decide, by decide, by decide, ?_, by norm_num⟩
  simp [trackerWithA, trackedWithProgress, DroneTracker.set_mission,
    List.lookup]

/-- CLAIM C3 (amended).  `DroneTracker::set_mission` only replaces the
active-mission slot, leaving every tracked drone's waypoint index and
progress exactly as they were; the reset described by the claim is what
`MissionExecutor::set_mission` does to its own per-drone progress map: every
drone assigned to the mission gets `WaypointProgress::new` (index 0,
progress 0), regardless of its previous progress entry. -/
theorem set_mission_replaces_slot_only (s : DroneTracker) (m : Mission)
    (ex : MissionExec.MissionExecutor) (did : String)
    (hd : did ∈ m.assigned_drones) :
    (s.set_mission m).mission = some m ∧
    (s.set_mission m).drones = s.drones ∧
    (s.set_mission m).config = s.config ∧
    (ex.set_mission m).mission = some m ∧
    (ex.set_mission m).drone_progress.lookup did =
      some MissionExec.WaypointProgress.new := by
  refine ⟨rfl, rfl, rfl, rfl, ?_⟩
  exact lookup_foldl_listInsert_mem _ _ _ _ hd

/-- Witness for C3's amended theorem: an executor whose drone "A" already sat
at waypoint index 5 is reset to index 0, progress 0 by
`MissionExecutor::set_mission` for the mission assigning "A". -/
theorem set_mission_replaces_slot_only_witness :
    ("A" ∈ missionAssigningA.assigned_drones) ∧
    (({ mission := none
        drone_progress := [("A",
          { current_index := 5, progress_to_next := 1/2
            waypoints_completed := [], estimated_arrival := none })]
        start_time := none
        threshold_km := 1/2 } : MissionExec.MissionExecutor).set_mission
          missionAssigningA).drone_progress.lookup "A" =
      some MissionExec.WaypointProgress.new :=
  ⟨by decide,
   (set_mission_replaces_slot_only trackerWithA missionAssigningA _ "A"
      (by decide)).2.2.2.2⟩

end Trk

namespace Trk

open DroneCore

/-- One position update keeps the history within the 100-sample bound. -/
theorem update_position_history_le (t : TrackedDrone) (pos : GeoPosition)
    (tel : Telemetry) (now : ℤ) (h : t.position_history.length ≤ 100) :
    (t.update_position pos tel now).position_history.length ≤ 100 := by
  simp only [TrackedDrone.update_position]
  by_cases hc : 100 < (t.position_history ++ [(now, pos)]).length
  · rw [if_pos hc]
    simp only [List.length_tail, List.length_append, List.length_singleton]
    omega
  · rw [if_neg hc]
    simp only [List.length_append, List.length_singleton] at hc ⊢
    omega

/-- CLAIM C8.  Every position update appends the new sample; when the history
already holds 100 samples the oldest one (`remove(0)`) is evicted, so the
history length never exceeds 100 — in particular any sequence of updates
starting from a freshly registered drone keeps at most 100 samples. -/
theorem position_history_bounded (t : TrackedDrone) (pos : GeoPosition)
    (tel : Telemetry) (now : ℤ) (d : Drone) (now0 : ℤ)
    (ups : List (GeoPosition × Telemetry × ℤ)) :
    (t.position_history.length ≤ 100 →
      (t.update_position pos tel now).position_history.length ≤ 100) ∧
    (t.position_history.length < 100 →
      (t.update_position pos tel now).position_history =
        t.position_history ++ [(now, pos)]) ∧
    (t.position_history.length = 100 →
      (t.update_position pos tel now).position_history =
        t.position_history.tail ++ [(now, pos)]) ∧
    ((ups.foldl (fun acc u => acc.update_position u.1 u.2.1 u.2.2)
        (TrackedDrone.new d now0)).position_history.length ≤ 100) := by
  refine ⟨update_position_history_le t pos tel now, ?_, ?_, ?_⟩
  · intro h
    simp only [TrackedDrone.update_position]
    rw [if_neg]
    simp only [List.length_append, List.length_singleton]
    omega
  · intro h
    simp only [TrackedDrone.update_position]
    rw [if_pos]
    · cases ht : t.position_history with
      | nil => rw [ht] at h; simp at h
      | cons a l => simp [ht]
    · simp only [List.length_append, List.length_singleton]
      omega
  · have inv : ∀ (l : List (GeoPosition × Telemetry × ℤ)) (s : TrackedDrone),
        s.position_history.length ≤ 100 →
        (l.foldl (fun acc u => acc.update_position u.1 u.2.1 u.2.2)
          s).position_history.length ≤ 100 := by
      intro l
      induction l with
      | nil => intro s hs; simpa using hs
      | cons u rest ih =>
          intro s hs
          simp only [List.foldl_cons]
          exact ih _ (update_position_history_le s u.1 u.2.1 u.2.2 hs)
    exact inv ups (TrackedDrone.new d now0) (by simp [TrackedDrone.new])

/-- Witness for C8's theorem: the one-sample tracked drone from above is
still within bounds after an update, and the update is a plain append. -/
theorem position_history_bounded_witness :
    (trackedWithProgress.update_position (GeoPosition.new 4 4 4)
        Telemetry.mkDefault 9).position_history.length ≤ 100 ∧
    (trackedWithProgress.update_position (GeoPosition.new 4 4 4)
        Telemetry.mkDefault 9).position_history =
      trackedWithProgress.position_history ++ [(9, GeoPosition.new 4 4 4)] :=
  ⟨(position_history_bounded trackedWithProgress (GeoPosition.new 4 4 4)
      Telemetry.mkDefault 9 (Drone.new "A" "Alpha") 0 []).1 (by decide),
   (position_history_bounded trackedWithProgress (GeoPosition.new 4 4 4)
      Telemetry.mkDefault 9 (Drone.new "A" "Alpha") 0 []).2.1 (by decide)⟩

end Trk

namespace Trk

open DroneCore

/-- A concrete interpretation of the `f64` math functions used to evaluate
the haversine distance on the C6 scenario.  Only ratios of the two distances
matter; this interpretation (identity `sin`/`asin`/`sqrt`, zero `cos`, π ≈ 3)
turns the haversine into a quadratic in the latitude difference, preserving
`distance(drone, W1) = 4 · distance(W0, W1)` — the property the real `f64`
run of the same scenario also has (drone at latitude 3 between waypoints at
latitudes 0 and 1 is about 4 segment-lengths from W1 at small angles). -/
def geoFns : FloatFns :=
  { sqrt := fun q => q
    asin := fun q => q
    acos := fun _ => 0
    sin := fun q => q
    cos := fun _ => 0
    pi := 3 }

/-- Waypoint 0 of the C6/C7 scenario, at latitude 0. -/
def wpStart : Waypoint :=
  { id := "WP0", name := "Start", position := GeoPosition.new 0 0 0 }

/-- Waypoint 1 of the C6/C7 scenario, at latitude 1. -/
def wpNext : Waypoint :=
  { id := "WP1", name := "Next", position := GeoPosition.new 1 0 0 }

/-- An active two-waypoint mission assigning drone "A". -/
def missionTwoWp : Mission :=
  { name := "OP-6", status := MissionStatus.Active
    waypoints := [wpStart, wpNext], assigned_drones := ["A"] }

/-- Drone "A" tracked at waypoint index 1, positioned at latitude 3 — past
waypoint 1, three segment-lengths beyond it. -/
def trackedPastWp : TrackedDrone :=
  { TrackedDrone.new
      { Drone.new "A" "Alpha" with position := GeoPosition.new 3 0 0 } 0 with
    waypoint_index := 1 }

/-- A mission executor in the corresponding state: same mission, drone "A" at
waypoint index 1. -/
def execAtWp1 : MissionExec.MissionExecutor :=
  { mission := some missionTwoWp
    drone_progress := [("A",
      { current_index := 1, progress_to_next := 0
        waypoints_completed := ["WP0"], estimated_arrival := none })]
    start_time := none
    threshold_km := 1/2 }

/-- CLAIM C6.  `DroneTracker::check_waypoint_progress` stores the raw value
`1 − remaining/total` WITHOUT clamping: at the concrete scenario (drone at
latitude 3, current waypoint at latitude 1, previous at 0, far outside the
100 m threshold) the stored progress is `-3`, a negative value — although the
`waypoint_progress` field is documented as `0.0 - 1.0` and the sibling
implementation `MissionExecutor::update_drone_position` clamps the same
quantity (it stores `1 − min(d/total, 1) = 0 ≥ 0` on the same scenario). -/
theorem check_waypoint_progress_unclamped :
    (DroneTracker.check_waypoint_progress geoFns TrackerConfig.mkDefault
        trackedPastWp missionTwoWp).waypoint_progress = -3 ∧
    ((-3 : ℚ) < 0) ∧
    (DroneTracker.check_waypoint_progress geoFns TrackerConfig.mkDefault
        trackedPastWp missionTwoWp).waypoint_index = 1 ∧
    (((MissionExec.MissionExecutor.update_drone_position geoFns execAtWp1 "A"
        (GeoPosition.new 3 0 0) 0 0).1.drone_progress.lookup "A").map
      (fun p => p.progress_to_next) = some 0) := by
  refine ⟨?_, by norm_num, ?_, ?_⟩
  · simp only [DroneTracker.check_waypoint_progress, trackedPastWp,
      missionTwoWp, wpStart, wpNext, TrackerConfig.mkDefault,
      TrackedDrone.new, Drone.new, GeoPosition.new,
      GeoPosition.distance_to, toRadians, geoFns]
    norm_num
  · simp only [DroneTracker.check_waypoint_progress, trackedPastWp,
      missionTwoWp, wpStart, wpNext, TrackerConfig.mkDefault,
      TrackedDrone.new, Drone.new, GeoPosition.new,
      GeoPosition.distance_to, toRadians, geoFns]
    norm_num
  · simp only [MissionExec.MissionExecutor.update_drone_position, execAtWp1,
      missionTwoWp, wpStart, wpNext, GeoPosition.new,
      GeoPosition.distance_to, toRadians, geoFns, List.lookup]
    norm_num [lookup_listInsert_self]

end Trk

namespace Trk

open DroneCore

/-- Index facts for a single `check_waypoint_progress` step: the index never
decreases, moves by at most one, stays within the waypoint count, and
advances (by exactly one) precisely when the index is in range and the
distance to the current waypoint is below the arrival threshold. -/
theorem checkWp_index_facts (ops : FloatFns) (cfg : TrackerConfig)
    (tr : TrackedDrone) (m : Mission) :
    tr.waypoint_index ≤
        (DroneTracker.check_waypoint_progress ops cfg tr m).waypoint_index ∧
    (DroneTracker.check_waypoint_progress ops cfg tr m).waypoint_index ≤
        tr.waypoint_index + 1 ∧
    (tr.waypoint_index ≤ m.waypoints.length →
      (DroneTracker.check_waypoint_progress ops cfg tr m).waypoint_index ≤
        m.waypoints.length) ∧
    ((DroneTracker.check_waypoint_progress ops cfg tr m).waypoint_index =
        tr.waypoint_index + 1 ↔
      ∃ h : tr.waypoint_index < m.waypoints.length,
        GeoPosition.distance_to ops tr.drone.position
            (m.waypoints.get ⟨tr.waypoint_index, h⟩).position * 1000 <
          cfg.waypoint_threshold_meters) := by
  simp only [DroneTracker.check_waypoint_progress]
  split
  · rename_i hlt
    split
    · rename_i hd
      refine ⟨Nat.le_succ _, le_refl _, fun _ => Nat.succ_le_of_lt hlt, ?_⟩
      exact ⟨fun _ => ⟨hlt, hd⟩, fun _ => rfl⟩
    · rename_i hd
      split_ifs with h1 h2 <;>
      · refine ⟨le_refl _, Nat.le_succ _, fun hb => hb, ?_⟩
        constructor
        · intro habs
          exact absurd habs (Nat.ne_of_lt (Nat.lt_succ_self _))
        · rintro ⟨h', hd'⟩
          exact absurd hd' hd
  · rename_i hge
    refine ⟨le_refl _, Nat.le_succ _, fun hb => hb, ?_⟩
    constructor
    · intro habs
      exact absurd habs (Nat.ne_of_lt (Nat.lt_succ_self _))
    · rintro ⟨h', _⟩
      exact absurd h' hge

/-- `update_position` does not touch the waypoint index. -/
theorem update_position_waypoint_index (t : TrackedDrone) (pos : GeoPosition)
    (tel : Telemetry) (now : ℤ) :
    (t.update_position pos tel now).waypoint_index = t.waypoint_index := rfl

/-- Across any sequence of position updates with a fixed mission, the
waypoint index never decreases and stays within the waypoint count. -/
theorem checkWp_fold_index (ops : FloatFns) (cfg : TrackerConfig)
    (m : Mission) (ups : List (GeoPosition × Telemetry × ℤ))
    (tr : TrackedDrone) :
    tr.waypoint_index ≤
      (ups.foldl (fun acc u => DroneTracker.check_waypoint_progress ops cfg
        (acc.update_position u.1 u.2.1 u.2.2) m) tr).waypoint_index ∧
    (tr.waypoint_index ≤ m.waypoints.length →
      (ups.foldl (fun acc u => DroneTracker.check_waypoint_progress ops cfg
        (acc.update_position u.1 u.2.1 u.2.2) m) tr).waypoint_index ≤
        m.waypoints.length) := by
  induction ups generalizing tr with
  | nil => exact ⟨le_refl _, fun hb => hb⟩
  | cons u rest ih =>
      simp only [List.foldl_cons]
      set tr1 := DroneTracker.check_waypoint_progress ops cfg
        (tr.update_position u.1 u.2.1 u.2.2) m with htr1
      have hstep := checkWp_index_facts ops cfg
        (tr.update_position u.1 u.2.1 u.2.2) m
      rw [update_position_waypoint_index] at hstep
      constructor
      · exact le_trans hstep.1 (ih tr1).1
      · intro hb
        exact (ih tr1).2 (hstep.2.2.1 hb)

/-- Index facts for a single `MissionExecutor::update_drone_position` call:
the per-drone index never decreases, moves by at most one, and stays within
the mission's waypoint count. -/
theorem exec_update_index_facts (ops : FloatFns)
    (ex : MissionExec.MissionExecutor) (mex : Mission) (did : String)
    (pos : GeoPosition) (speed : ℚ) (now : ℤ)
    (p p' : MissionExec.WaypointProgress)
    (hm : ex.mission = some mex)
    (hlk : ex.drone_progress.lookup did = some p)
    (hlk' : (MissionExec.MissionExecutor.update_drone_position ops ex did pos
        speed now).1.drone_progress.lookup did = some p') :
    p.current_index ≤ p'.current_index ∧
    p'.current_index ≤ p.current_index + 1 ∧
    (p.current_index ≤ mex.waypoints.length →
      p'.current_index ≤ mex.waypoints.length) := by
  simp only [MissionExec.MissionExecutor.update_drone_position, hm] at hlk'
  by_cases hst : mex.status ≠ DroneCore.MissionStatus.Active
  · rw [if_pos hst] at hlk'
    dsimp only at hlk'
    rw [hlk] at hlk'
    obtain rfl : p = p' := Option.some.inj hlk'
    exact ⟨le_refl _, Nat.le_succ _, fun hb => hb⟩
  · rw [if_neg hst] at hlk'
    rw [hlk] at hlk'
    dsimp only at hlk'
    cases hg : mex.waypoints.get? p.current_index with
    | none =>
        rw [hg] at hlk'
        dsimp only at hlk'
        rw [hlk] at hlk'
        obtain rfl : p = p' := Option.some.inj hlk'
        exact ⟨le_refl _, Nat.le_succ _, fun hb => hb⟩
    | some wp =>
        rw [hg] at hlk'
        dsimp only at hlk'
        have hlen : p.current_index < mex.waypoints.length :=
          (List.get?_eq_some.mp hg).1
        split_ifs at hlk' <;>
          (dsimp only at hlk'
           rw [lookup_listInsert_self] at hlk'
           obtain rfl := Option.some.inj hlk'
           dsimp only
           exact ⟨by omega, by omega, fun hb => by omega⟩)

/-- CLAIM C7.  The tracked waypoint index lies in `[0, waypoints.len]` and
never decreases: one `check_waypoint_progress` step raises it by at most one,
advances it by exactly one precisely when the index is in range and the
waypoint-arrival threshold is met, never pushes it past `waypoints.len`; the
same monotonicity and bound hold across any sequence of position updates with
the mission unchanged, and for `MissionExecutor::update_drone_position`'s
per-drone index. -/
theorem waypoint_index_monotone_bounded (ops : FloatFns)
    (cfg : TrackerConfig) (tr : TrackedDrone) (m : Mission)
    (ups : List (GeoPosition × Telemetry × ℤ))
    (ex : MissionExec.MissionExecutor) (mex : Mission) (did : String)
    (pos : GeoPosition) (speed : ℚ) (now : ℤ)
    (p p' : MissionExec.WaypointProgress)
    (hm : ex.mission = some mex)
    (hlk : ex.drone_progress.lookup did = some p)
    (hlk' : (MissionExec.MissionExecutor.update_drone_position ops ex did pos
        speed now).1.drone_progress.lookup did = some p') :
    (tr.waypoint_index ≤
        (DroneTracker.check_waypoint_progress ops cfg tr m).waypoint_index ∧
      (DroneTracker.check_waypoint_progress ops cfg tr m).waypoint_index ≤
        tr.waypoint_index + 1 ∧
      (tr.waypoint_index ≤ m.waypoints.length →
        (DroneTracker.check_waypoint_progress ops cfg tr m).waypoint_index ≤
          m.waypoints.length) ∧
      ((DroneTracker.check_waypoint_progress ops cfg tr m).waypoint_index =
          tr.waypoint_index + 1 ↔
        ∃ h : tr.waypoint_index < m.waypoints.length,
          GeoPosition.distance_to ops tr.drone.position
              (m.waypoints.get ⟨tr.waypoint_index, h⟩).position * 1000 <
            cfg.waypoint_threshold_meters)) ∧
    (tr.waypoint_index ≤
        (ups.foldl (fun acc u => DroneTracker.check_waypoint_progress ops cfg
          (acc.update_position u.1 u.2.1 u.2.2) m) tr).waypoint_index ∧
      (tr.waypoint_index ≤ m.waypoints.length →
        (ups.foldl (fun acc u => DroneTracker.check_waypoint_progress ops cfg
          (acc.update_position u.1 u.2.1 u.2.2) m) tr).waypoint_index ≤
          m.waypoints.length)) ∧
    (p.current_index ≤ p'.current_index ∧
      p'.current_index ≤ p.current_index + 1 ∧
      (p.current_index ≤ mex.waypoints.length →
        p'.current_index ≤ mex.waypoints.length)) :=
  ⟨checkWp_index_facts ops cfg tr m,
   checkWp_fold_index ops cfg m ups tr,
   exec_update_index_facts ops ex mex did pos speed now p p' hm hlk hlk'⟩

end Trk

namespace Trk

open DroneCore

/-- The executor progress entry of `execAtWp1`. -/
def progAtWp1 : MissionExec.WaypointProgress :=
  { current_index := 1, progress_to_next := 0
    waypoints_completed := ["WP0"], estimated_arrival := none }

/-- The executor progress entry after reaching waypoint 1. -/
def progReached : MissionExec.WaypointProgress :=
  { current_index := 2, progress_to_next := 0
    waypoints_completed := ["WP0", "WP1"], estimated_arrival := none }

/-- Concrete executor run for the C7 witness: at waypoint 1's exact position
the threshold is met, so the index advances from 1 to 2. -/
theorem exec_reaches_wp1 :
    (MissionExec.MissionExecutor.update_drone_position geoFns execAtWp1 "A"
        (GeoPosition.new 1 0 0) 0 0).1.drone_progress.lookup "A" =
      some progReached := by
  simp only [MissionExec.MissionExecutor.update_drone_position, execAtWp1,
    missionTwoWp, wpStart, wpNext, List.lookup]
  norm_num [GeoPosition.distance_to, toRadians, geoFns, GeoPosition.new,
    listInsert, List.lookup, progReached]

/-- Witness for C7's theorem at a concrete scenario: the three executor
hypotheses (an active mission, an existing progress entry at index 1, and the
resulting entry after a position update at waypoint 1) are discharged
concretely, and the theorem yields monotone, bounded index movement. -/
theorem waypoint_index_monotone_bounded_witness :
    progAtWp1.current_index ≤ progReached.current_index ∧
    progReached.current_index ≤ progAtWp1.current_index + 1 ∧
    progReached.current_index ≤ missionTwoWp.waypoints.length := by
  have h := waypoint_index_monotone_bounded geoFns TrackerConfig.mkDefault
    trackedWithProgress missionTwoWp [] execAtWp1 missionTwoWp "A"
    (GeoPosition.new 1 0 0) 0 0 progAtWp1 progReached rfl rfl exec_reaches_wp1
  exact ⟨h.2.2.1, h.2.2.2.1, h.2.2.2.2 (by decide)⟩

end Trk

namespace Convoy

open DroneCore

/-- Embeds `ConvoyManager::set_leader` (lines 82-85). -/
def ConvoyManager.set_leader (c : ConvoyManager) (drone_id : String) :
    ConvoyManager :=
  { c with leader := some drone_id }

/-- The offsets map is exactly what `recalculate_offsets` would produce for
the current formation, order and spacing.  Every `ConvoyManager` reachable
through the public API satisfies this: `new` starts empty with an empty
order, and `set_formation` / `set_order` / `set_spacing` all rerun
`recalculate_offsets`. -/
def offsetsConsistent (ops : FloatFns) (c : ConvoyManager) : Prop :=
  c.offsets = (ConvoyManager.recalculate_offsets ops c).offsets

/-- CLAIM C10.  `ConvoyManager::set_spacing` never changes the stored spacing
(the assignment is commented out in the source, so it stays at the
construction default of 50.0): it only reruns `recalculate_offsets`, which on
any API-reachable (offsets-consistent) state is the identity — hence every
subsequent `get_offset` and `get_target_position` result equals what it would
have been had `set_spacing` never been called.  `new` builds a consistent
state with spacing 50, and `set_formation` / `set_order` keep spacing and
consistency. -/
theorem set_spacing_is_noop (ops : FloatFns) (c : ConvoyManager) (m : ℚ)
    (f : Formation) (ord : List String) (did : String) (lp : GeoPosition)
    (hd : ℚ) (h : offsetsConsistent ops c) :
    (ConvoyManager.set_spacing ops c m).spacing = c.spacing ∧
    ConvoyManager.new.spacing = 50 ∧
    (ConvoyManager.set_formation ops c f).spacing = c.spacing ∧
    (ConvoyManager.set_order ops c ord).spacing = c.spacing ∧
    (ConvoyManager.set_leader c did).spacing = c.spacing ∧
    ConvoyManager.set_spacing ops c m = c ∧
    (ConvoyManager.set_spacing ops c m).get_offset did = c.get_offset did ∧
    (ConvoyManager.set_spacing ops c m).get_target_position ops did lp hd =
      c.get_target_position ops did lp hd ∧
    offsetsConsistent ops (ConvoyManager.set_formation ops c f) ∧
    offsetsConsistent ops (ConvoyManager.set_order ops c ord) ∧
    offsetsConsistent ops ConvoyManager.new := by
  have hid : ConvoyManager.set_spacing ops c m = c := by
    unfold ConvoyManager.set_spacing
    unfold offsetsConsistent at h
    cases c with
    | mk fm ld orr os sp =>
        simp only [ConvoyManager.recalculate_offsets] at h ⊢
        congr 1
        exact h.symm
  refine ⟨?_, rfl, rfl, rfl, rfl, hid, ?_, ?_, rfl, rfl, rfl⟩
  · rw [hid]
  · rw [hid]
  · rw [hid]

/-- Witness for C10's theorem: the freshly constructed manager is
offsets-consistent, `set_spacing 99` leaves it untouched and its spacing is
the construction default 50. -/
theorem set_spacing_is_noop_witness :
    ConvoyManager.set_spacing Trk.geoFns ConvoyManager.new 99 =
        ConvoyManager.new ∧
    ConvoyManager.new.spacing = 50 :=
  ⟨(set_spacing_is_noop Trk.geoFns ConvoyManager.new 99 Formation.Line []
      "A" (GeoPosition.new 0 0 0) 0 rfl).2.2.2.2.2.1,
   (set_spacing_is_noop Trk.geoFns ConvoyManager.new 99 Formation.Line []
      "A" (GeoPosition.new 0 0 0) 0 rfl).2.1⟩

end Convoy

namespace Cv

/-- A concrete interpretation of the `f64` functions for evaluating the CV
tracker on the traces below.  It agrees with the `f64` originals on every
input those traces reach: `sqrt 0 = 0`, `sqrt 4 = 2`, `sqrt 9604 = 98`, and
`π` is only ever used in the ratio `π·r²/π·R²`, which is independent of its
(nonzero) value; `acos`/`asin`/`sin`/`cos` are never reached. -/
def ratFns : FloatFns :=
  { sqrt := fun q =>
      if q = 0 then 0 else if q = 4 then 2 else if q = 9604 then 98 else 0
    asin := fun _ => 0
    acos := fun _ => 0
    sin := fun _ => 0
    cos := fun _ => 0
    pi := 3 }

/-- The detection at pixel (100,100) with radius 30 used by the claims. -/
def det100 : DetectedHalo := DetectedHalo.mk' 100 100 30

/-- Two identical circles have IoU exactly 1 (the containment branch returns
`π·r²/π·r²`). -/
theorem iou_same_circle :
    calculate_circle_iou ratFns 100 100 30 100 100 30 = 1 := by
  norm_num [calculate_circle_iou, ratFns]

/-- The track state `DroneTracker::update` leaves behind for a track created
from `det100` in the same frame: `create_track` sets
`consecutive_detections = 1` and `frames_since_detection = 0`, but the
step-5 loop of the same `update` call — which treats every track absent from
the associations as unmatched, including tracks created in step 4 — resets
them to 0 and 1. -/
def tieTrack (id : ℕ) : TrackState :=
  { tracking_id := id
    kalman := (KalmanTracker.new (1/100) (1/10)).initWith 100 100
    last_detection := det100
    frames_since_detection := 1
    consecutive_detections := 0
    confidence := 1
    confirmed := false }

/-- One `update` on an empty tracker with two identical detections really
produces two tracks in exactly the `tieTrack` states: the tie situation used
below is reachable. -/
theorem tie_reachable :
    ((DroneTracker.new CvConfig.mkDefault).update ratFns
      [det100, det100]).1.tracks = [(1, tieTrack 1), (2, tieTrack 2)] := by
  rfl

/-- Cost matrix for the tied pair: both tracks sit at the detection's exact
position, so both rows hold the same finite cost `1 - 1 = 0`. -/
theorem tie_cost :
    costMatrix ratFns CvConfig.mkDefault [(1, tieTrack 1), (2, tieTrack 2)]
      [det100] = [[some 0], [some 0]] := by
  simp only [costMatrix, tieTrack, det100, DetectedHalo.mk', List.map,
    List.lookup, KalmanTracker.position, KalmanTracker.new,
    KalmanTracker.initWith, CvConfig.mkDefault, TrackingConfig.mkDefault,
    show ((1:ℕ) == 1) = true from rfl, show ((2:ℕ) == 1) = false from rfl,
    show ((2:ℕ) == 2) = true from rfl,
    Matrix.cons_val_zero, Matrix.cons_val_one, Matrix.head_cons]
  norm_num [truncQ, iou_same_circle]

/-- Same cost matrix for the reversed iteration order. -/
theorem tie_cost_rev :
    costMatrix ratFns CvConfig.mkDefault [(2, tieTrack 2), (1, tieTrack 1)]
      [det100] = [[some 0], [some 0]] := by
  simp only [costMatrix, tieTrack, det100, DetectedHalo.mk', List.map,
    List.lookup, KalmanTracker.position, KalmanTracker.new,
    KalmanTracker.initWith, CvConfig.mkDefault, TrackingConfig.mkDefault,
    show ((1:ℕ) == 1) = true from rfl, show ((1:ℕ) == 2) = false from rfl,
    show ((2:ℕ) == 2) = true from rfl,
    Matrix.cons_val_zero, Matrix.cons_val_one, Matrix.head_cons]
  norm_num [truncQ, iou_same_circle]

/-- CLAIM C4 (counterexample).  The association is NOT a function of the set
of tracks and the detection list: with two equal-cost tracks — a state one
`update` call on two identical detections really produces — the greedy loop
commits the tie to whichever track comes first in the track map's iteration
order, so iterating `{1, 2}` as `[1, 2]` assigns the detection to track 1
while iterating it as `[2, 1]` assigns it to track 2.  In particular ties are
broken by iteration position, not by lower track index. -/
theorem associate_detections_order_dependent :
    ((DroneTracker.new CvConfig.mkDefault).update ratFns
        [det100, det100]).1.tracks = [(1, tieTrack 1), (2, tieTrack 2)] ∧
    associate_detections ratFns CvConfig.mkDefault
        [(1, tieTrack 1), (2, tieTrack 2)] [det100] = [(1, 0)] ∧
    associate_detections ratFns CvConfig.mkDefault
        [(2, tieTrack 2), (1, tieTrack 1)] [det100] = [(2, 0)] ∧
    ([((1:ℕ), (0:ℕ))] : List (ℕ × ℕ)) ≠ [(2, 0)] := by
  refine ⟨tie_reachable, ?_, ?_, by decide⟩
  · simp only [associate_detections]
    rw [if_neg (by simp)]
    simp only [List.map, tie_cost]
    simp only [greedyAssign, findMinCost, List.replicate, List.length_cons,
      List.length_nil, List.range_succ, List.range_zero, List.foldl,
      List.getD, List.get?, ltCost, List.nil_append, List.append_nil,
      List.set, List.cons_append]
    norm_num
  · simp only [associate_detections]
    rw [if_neg (by simp)]
    simp only [List.map, tie_cost_rev]
    simp only [greedyAssign, findMinCost, List.replicate, List.length_cons,
      List.length_nil, List.range_succ, List.range_zero, List.foldl,
      List.getD, List.get?, ltCost, List.nil_append, List.append_nil,
      List.set, List.cons_append]
    norm_num

end Cv

namespace Cv

/-- The second track of the claim's concrete example, at (200,100) with
radius 30 (same bookkeeping state as `tieTrack`). -/
def farTrack (id : ℕ) : TrackState :=
  { tracking_id := id
    kalman := (KalmanTracker.new (1/100) (1/10)).initWith 200 100
    last_detection := DetectedHalo.mk' 200 100 30
    frames_since_detection := 1
    consecutive_detections := 0
    confidence := 1
    confirmed := false }

/-- The claim's detection list: circles at (102,100) and (198,100), r = 30. -/
def detsNear : List DetectedHalo :=
  [DetectedHalo.mk' 102 100 30, DetectedHalo.mk' 198 100 30]

/-- The cross pair (100,100)↔(198,100) is 98 pixels apart — beyond the sum of
radii — so its IoU is 0. -/
theorem iou_cross_left (ops : FloatFns) (h98 : ops.sqrt 9604 = 98) :
    calculate_circle_iou ops 100 100 30 198 100 30 = 0 := by
  unfold calculate_circle_iou
  norm_num [h98]

/-- The cross pair (200,100)↔(102,100) likewise has IoU 0. -/
theorem iou_cross_right (ops : FloatFns) (h98 : ops.sqrt 9604 = 98) :
    calculate_circle_iou ops 200 100 30 102 100 30 = 0 := by
  unfold calculate_circle_iou
  norm_num [h98]

/-- Both near pairs are 2 pixels apart with equal radii, so their IoU
expressions are equal (whatever `acos` is). -/
theorem iou_near_sym (ops : FloatFns) (h4 : ops.sqrt 4 = 2) :
    calculate_circle_iou ops 200 100 30 198 100 30 =
      calculate_circle_iou ops 100 100 30 102 100 30 := by
  unfold calculate_circle_iou
  norm_num [h4]

/-- Cost matrix of the claim's example: finite (equal) costs on the diagonal,
`f64::MAX` (`none`) on the cross pairs. -/
theorem near_cost (ops : FloatFns) (h4 : ops.sqrt 4 = 2)
    (h98 : ops.sqrt 9604 = 98)
    (hthr : 3/10 < calculate_circle_iou ops 100 100 30 102 100 30) :
    costMatrix ops CvConfig.mkDefault [(1, tieTrack 1), (2, farTrack 2)]
      detsNear =
    [[some (1 - calculate_circle_iou ops 100 100 30 102 100 30), none],
     [none, some (1 - calculate_circle_iou ops 100 100 30 102 100 30)]] := by
  simp only [costMatrix, tieTrack, farTrack, det100, detsNear,
    DetectedHalo.mk', List.map, List.lookup, KalmanTracker.position,
    KalmanTracker.new, KalmanTracker.initWith, CvConfig.mkDefault,
    TrackingConfig.mkDefault,
    show ((1:ℕ) == 1) = true from rfl, show ((2:ℕ) == 1) = false from rfl,
    show ((2:ℕ) == 2) = true from rfl,
    Matrix.cons_val_zero, Matrix.cons_val_one, Matrix.head_cons]
  norm_num [truncQ, iou_cross_left ops h98, iou_cross_right ops h98,
    iou_near_sym ops h4, hthr]

/-- Same cost matrix with the rows in the opposite iteration order. -/
theorem near_cost_rev (ops : FloatFns) (h4 : ops.sqrt 4 = 2)
    (h98 : ops.sqrt 9604 = 98)
    (hthr : 3/10 < calculate_circle_iou ops 100 100 30 102 100 30) :
    costMatrix ops CvConfig.mkDefault [(2, farTrack 2), (1, tieTrack 1)]
      detsNear =
    [[none, some (1 - calculate_circle_iou ops 100 100 30 102 100 30)],
     [some (1 - calculate_circle_iou ops 100 100 30 102 100 30), none]] := by
  simp only [costMatrix, tieTrack, farTrack, det100, detsNear,
    DetectedHalo.mk', List.map, List.lookup, KalmanTracker.position,
    KalmanTracker.new, KalmanTracker.initWith, CvConfig.mkDefault,
    TrackingConfig.mkDefault,
    show ((1:ℕ) == 1) = true from rfl, show ((1:ℕ) == 2) = false from rfl,
    show ((2:ℕ) == 2) = true from rfl,
    Matrix.cons_val_zero, Matrix.cons_val_one, Matrix.head_cons]
  norm_num [truncQ, iou_cross_left ops h98, iou_cross_right ops h98,
    iou_near_sym ops h4, hthr]

/-- Strict comparison against the `f64::MAX` sentinel. -/
theorem ltCost_some_none (x : ℚ) : ltCost (some x) none = true := rfl

/-- The sentinel is never smaller than anything. -/
theorem ltCost_none (x : Option ℚ) : ltCost none x = false := rfl

/-- Equal finite costs do not improve each other (strict `<`). -/
theorem ltCost_some_self (x : ℚ) : ltCost (some x) (some x) = false := by
  simp [ltCost]

/-- Greedy commit on the diagonal cost matrix. -/
theorem greedy_diag (c1 : ℚ) :
    greedyAssign 2 [[some c1, none], [none, some c1]] [1, 2]
      [false, false] [false, false] [] = [(1, 0), (2, 1)] := by
  simp [greedyAssign, findMinCost, List.range_succ, ltCost_some_none,
    ltCost_none, ltCost_some_self]
  try decide

/-- Greedy commit on the anti-diagonal cost matrix. -/
theorem greedy_antidiag (c1 : ℚ) :
    greedyAssign 2 [[none, some c1], [some c1, none]] [2, 1]
      [false, false] [false, false] [] = [(2, 1), (1, 0)] := by
  simp [greedyAssign, findMinCost, List.range_succ, ltCost_some_none,
    ltCost_none, ltCost_some_self]
  try decide

/-- CLAIM C4 (amended).  The association repeatedly commits the globally
minimum finite-cost pair, but ties are broken by earliest position in the
track map's (unspecified) iteration order and then by lower detection index —
not by lower track id — so with exactly equal costs different iteration
orders give different assignments (see the counterexample).  The claim's
concrete example is unaffected by this: for tracks at (100,100,r=30) and
(200,100,r=30) and detections at (102,100,r=30), (198,100,r=30) — with the
true-of-`f64` facts `sqrt 4 = 2`, `sqrt 9604 = 98` and near-pair
IoU > iouThreshold (the real value is ≈ 0.919 > 0.3) — both iteration orders
associate T1↔D1 and T2↔D2. -/
theorem associate_nearest_pairs (ops : FloatFns) (h4 : ops.sqrt 4 = 2)
    (h98 : ops.sqrt 9604 = 98)
    (hthr : 3/10 < calculate_circle_iou ops 100 100 30 102 100 30) :
    associate_detections ops CvConfig.mkDefault
        [(1, tieTrack 1), (2, farTrack 2)] detsNear = [(1, 0), (2, 1)] ∧
    associate_detections ops CvConfig.mkDefault
        [(2, farTrack 2), (1, tieTrack 1)] detsNear = [(2, 1), (1, 0)] ∧
    (([((1:ℕ), (0:ℕ)), (2, 1)] : List (ℕ × ℕ)).lookup 1 = some 0 ∧
      ([((1:ℕ), (0:ℕ)), (2, 1)] : List (ℕ × ℕ)).lookup 2 = some 1) ∧
    (([((2:ℕ), (1:ℕ)), (1, 0)] : List (ℕ × ℕ)).lookup 1 = some 0 ∧
      ([((2:ℕ), (1:ℕ)), (1, 0)] : List (ℕ × ℕ)).lookup 2 = some 1) := by
  refine ⟨?_, ?_, by decide, by decide⟩
  · simp only [associate_detections]
    rw [if_neg (by simp [detsNear])]
    simp only [List.map]
    rw [near_cost ops h4 h98 hthr]
    norm_num [detsNear, List.replicate]
    exact greedy_diag _
  · simp only [associate_detections]
    rw [if_neg (by simp [detsNear])]
    simp only [List.map]
    rw [near_cost_rev ops h4 h98 hthr]
    norm_num [detsNear, List.replicate]
    exact greedy_antidiag _

/-- Interpretation used to witness the amended C4 theorem: it satisfies the
two exact square-root equations the theorem needs, and makes the near-pair
IoU exceed the threshold (the real `f64` run satisfies the same bound with
IoU ≈ 0.919). -/
def witFns : FloatFns :=
  { sqrt := fun q => if q = 4 then 2 else if q = 9604 then 98 else 0
    asin := fun _ => 0
    acos := fun _ => 2
    sin := fun _ => 0
    cos := fun _ => 0
    pi := 3 }

/-- Under `witFns` the near-pair IoU exceeds the 0.3 threshold. -/
theorem witFns_iou :
    (3:ℚ)/10 < calculate_circle_iou witFns 100 100 30 102 100 30 := by
  norm_num [calculate_circle_iou, witFns]

/-- Witness for C4's amended theorem, discharging its three hypotheses at the
concrete interpretation `witFns`. -/
theorem associate_nearest_pairs_witness :
    associate_detections witFns CvConfig.mkDefault
        [(1, tieTrack 1), (2, farTrack 2)] detsNear = [(1, 0), (2, 1)] ∧
    associate_detections witFns CvConfig.mkDefault
        [(2, farTrack 2), (1, tieTrack 1)] detsNear = [(2, 1), (1, 0)] :=
  ⟨(associate_nearest_pairs witFns (by norm_num [witFns])
      (by norm_num [witFns]) witFns_iou).1,
   (associate_nearest_pairs witFns (by norm_num [witFns])
      (by norm_num [witFns]) witFns_iou).2.1⟩

end Cv

namespace Cv

/-- `predict` keeps a zero-velocity state in place (the position moves by
`v·dt = 0`). -/
theorem predict_state_fixed (k : KalmanTracker) (x y : ℚ)
    (hinit : k.initialized = true) (hs : k.state = ![x, y, 0, 0]) :
    (k.predict).1.state = ![x, y, 0, 0] ∧
    (k.predict).1.initialized = true := by
  constructor
  · simp only [KalmanTracker.predict, hinit]
    norm_num
    rw [hs]
    funext i
    fin_cases i <;> simp
  · simp only [KalmanTracker.predict, hinit]
    norm_num

/-- `update` with a measurement equal to the current zero-velocity state is a
fixed point of the state: the residual is 0, so the Kalman-gain correction
vanishes in the regular branch, and the singular-`det` branch returns the
predicted state unchanged — no covariance value needs to be computed. -/
theorem update_state_fixed (k : KalmanTracker) (x y : ℚ)
    (hinit : k.initialized = true) (hs : k.state = ![x, y, 0, 0]) :
    ((k.update x y).1).state = ![x, y, 0, 0] ∧
    ((k.update x y).1).initialized = true := by
  obtain ⟨hps, hpi⟩ := predict_state_fixed k x y hinit hs
  constructor
  · simp only [KalmanTracker.update, hinit]
    norm_num
    split_ifs with hdet
    · exact hps
    · rw [hps]
      funext i
      fin_cases i <;> (simp; try ring)
  · simp only [KalmanTracker.update, hinit]
    norm_num
    split_ifs with hdet
    · exact hpi
    · exact hpi

/-- Greedy commit on the 1×1 finite-cost matrix. -/
theorem greedy_single (c1 : ℚ) :
    greedyAssign 1 [[some c1]] [1] [false] [false] [] = [(1, 0)] := by
  simp [greedyAssign, findMinCost, List.range_succ, ltCost_some_none,
    ltCost_none, ltCost_some_self]
  try decide

/-- A single track predicted at (100,100) with radius 30 is associated with
the single detection `det100` (IoU 1 > 0.3). -/
theorem assoc_single (tr : TrackState)
    (hk0 : tr.kalman.state 0 = 100) (hk1 : tr.kalman.state 1 = 100)
    (hrad : tr.last_detection.radius = 30) :
    associate_detections ratFns CvConfig.mkDefault [(1, tr)] [det100] =
      [(1, 0)] := by
  simp only [associate_detections]
  rw [if_neg (by simp)]
  have hcost : costMatrix ratFns CvConfig.mkDefault [(1, tr)] [det100] =
      [[some 0]] := by
    simp only [costMatrix, List.map, List.lookup,
      show ((1:ℕ) == 1) = true from rfl, KalmanTracker.position,
      hk0, hk1, hrad, det100, DetectedHalo.mk', CvConfig.mkDefault,
      TrackingConfig.mkDefault]
    norm_num [truncQ, iou_same_circle]
  simp only [List.map]
  rw [hcost]
  norm_num [List.replicate]
  exact greedy_single _

/-- The single track of the C1 trace, with `consecutive_detections = n`,
`frames_since_detection = f`, `confirmed = c` and Kalman filter `k`. -/
def stepTrack (n f : ℕ) (c : Bool) (k : KalmanTracker) : TrackState :=
  { tracking_id := 1
    kalman := k
    last_detection := det100
    frames_since_detection := f
    consecutive_detections := n
    confidence := 1
    confirmed := c }

/-- The Kalman filter after one matched frame: step-1 `predict` followed by
the step-3 `update` at the detection centre (Rust casts the `i32` pixel
coordinates to `f64`). -/
def kStep (k : KalmanTracker) : KalmanTracker :=
  ((k.predict).1.update ((100 : ℤ) : ℚ) ((100 : ℤ) : ℚ)).1

/-- `kStep` keeps the filter at (100,100) with zero velocity. -/
theorem kStep_fixed (k : KalmanTracker) (hki : k.initialized = true)
    (hks : k.state = ![100, 100, 0, 0]) :
    (kStep k).state = ![100, 100, 0, 0] ∧
    (kStep k).initialized = true := by
  obtain ⟨hps, hpi⟩ := predict_state_fixed k 100 100 hki hks
  have hcast : ((100 : ℤ) : ℚ) = (100 : ℚ) := by norm_num
  unfold kStep
  rw [hcast]
  exact ⟨(update_state_fixed _ 100 100 hpi hps).1,
    (update_state_fixed _ 100 100 hpi hps).2⟩

/-- `create_track` does not change the configuration. -/
theorem create_track_config (s : DroneTracker) (d : DetectedHalo) :
    (s.create_track d).config = s.config := rfl

/-- Step 4's fold over unmatched detections does not change the
configuration. -/
theorem foldl_create_config (matched : List ℕ)
    (l : List (ℕ × DetectedHalo)) (acc : DroneTracker) :
    (l.foldl (fun acc p =>
      if matched.contains p.1 = false ∧
          acc.tracks.length < acc.config.tracking.max_tracks then
        acc.create_track p.2
      else acc) acc).config = acc.config := by
  induction l generalizing acc with
  | nil => rfl
  | cons hd tl ih =>
      simp only [List.foldl_cons]
      rw [ih]
      split_ifs <;> rfl

/-- `DroneTracker::update` never changes the configuration. -/
theorem update_config (ops : FloatFns) (s : DroneTracker)
    (dets : List DetectedHalo) :
    ((s.update ops dets).1).config = s.config := by
  simp only [DroneTracker.update]
  rw [foldl_create_config]

/-- One matched frame of the C1 trace: the association matches track 1 with
the single detection, so step 3 increments `consecutive_detections` and
confirms at `min_frames_to_confirm = 3`; steps 4-5 leave the track alone
because it is matched. -/
theorem update_matched (n f : ℕ) (c : Bool) (k : KalmanTracker)
    (s : DroneTracker) (hcfg : s.config = CvConfig.mkDefault)
    (htr : s.tracks = [(1, stepTrack n f c k)])
    (hki : k.initialized = true) (hks : k.state = ![100, 100, 0, 0]) :
    (s.update ratFns [det100]).1.tracks =
      [(1, stepTrack (n + 1) 0 (c || decide (3 ≤ n + 1)) (kStep k))] := by
  obtain ⟨hps, hpi⟩ := predict_state_fixed k 100 100 hki hks
  have hassoc : associate_detections ratFns CvConfig.mkDefault
      [(1, (⟨1, (k.predict).1, det100, f, n, 1, c⟩ : TrackState))] [det100] =
      [(1, 0)] := by
    refine assoc_single _ ?_ ?_ rfl
    · show (k.predict).1.state 0 = 100
      rw [hps]; simp
    · show (k.predict).1.state 1 = 100
      rw [hps]; simp
  simp only [DroneTracker.update, htr, List.map_cons, List.map_nil, stepTrack]
  rw [hcfg, hassoc]
  simp only [List.lookup, show ((1:ℕ) == 1) = true from rfl, List.get?,
    List.enum, List.enumFrom, List.map_cons, List.map_nil,
    List.foldl_cons, List.foldl_nil, List.filter,
    CvConfig.mkDefault, TrackingConfig.mkDefault, kStep,
    det100, DetectedHalo.mk']
  norm_num
  simp only [show (decide (some (0:ℕ) = none)) = false from rfl,
    Bool.false_and, List.filter, List.map_cons, List.map_nil,
    show ((1:ℕ) == 1) = true from rfl, List.not_mem_nil, decide_False,
    Bool.not_false]
  rw [if_neg (by simp)]
  cases c <;> by_cases hc3 : 3 ≤ n + 1 <;>
    simp [hc3, stepTrack, kStep, det100, DetectedHalo.mk']

/-- With a single track, `active_count` is 1 or 0 according to its
`confirmed` flag. -/
theorem active_count_single (s : DroneTracker) (tr' : TrackState)
    (h : s.tracks = [(1, tr')]) :
    s.active_count = if tr'.confirmed = true then 1 else 0 := by
  simp only [DroneTracker.active_count, h]
  cases hc : tr'.confirmed <;> simp [List.filter, hc]

/-- The Kalman filter of the track created on the first frame. -/
def kal1 : KalmanTracker := (KalmanTracker.new (1/100) (1/10)).initWith 100 100

/-- Tracker state after 1 update with the single detection `det100`. -/
def trace1 : DroneTracker :=
  ((DroneTracker.new CvConfig.mkDefault).update ratFns [det100]).1

/-- Tracker state after 2 updates. -/
def trace2 : DroneTracker := (trace1.update ratFns [det100]).1

/-- Tracker state after 3 updates. -/
def trace3 : DroneTracker := (trace2.update ratFns [det100]).1

/-- Tracker state after 4 updates. -/
def trace4 : DroneTracker := (trace3.update ratFns [det100]).1

end Cv

namespace Cv

/-- CLAIM C1.  With `min_frames_to_confirm = 3`, three updates of an empty
tracker, each carrying the single detection (100,100,r=30), leave ZERO
confirmed tracks — not one: `create_track` starts the new track with
`consecutive_detections = 1`, but the same update's step-5 loop treats the
just-created track as unmatched and resets the counter to 0, so after the
third update the counter is only 2; confirmation happens on the fourth
update. -/
theorem three_updates_confirm_nothing :
    CvConfig.mkDefault.tracking.min_frames_to_confirm = 3 ∧
    (∃ tr3, trace3.tracks = [(1, tr3)] ∧ tr3.consecutive_detections = 2 ∧
      tr3.confirmed = false) ∧
    trace3.active_count = 0 ∧
    trace4.active_count = 1 := by
  have h1t : trace1.tracks = [(1, stepTrack 0 1 false kal1)] := rfl
  have h1c : trace1.config = CvConfig.mkDefault := rfl
  have hk1i : kal1.initialized = true := rfl
  have hk1s : kal1.state = ![100, 100, 0, 0] := rfl
  have h2t : trace2.tracks =
      [(1, stepTrack (0 + 1) 0 (false || decide (3 ≤ 0 + 1)) (kStep kal1))] :=
    update_matched 0 1 false kal1 trace1 h1c h1t hk1i hk1s
  rw [show (false || decide (3 ≤ 0 + 1)) = false from by decide] at h2t
  have h2c : trace2.config = CvConfig.mkDefault := by
    rw [show trace2.config = trace1.config from
      update_config ratFns trace1 [det100], h1c]
  have hk2 := kStep_fixed kal1 hk1i hk1s
  have h3t : trace3.tracks =
      [(1, stepTrack (0 + 1 + 1) 0 (false || decide (3 ≤ 0 + 1 + 1))
        (kStep (kStep kal1)))] :=
    update_matched (0 + 1) 0 false (kStep kal1) trace2 h2c h2t hk2.2 hk2.1
  rw [show (false || decide (3 ≤ 0 + 1 + 1)) = false from by decide] at h3t
  have h3c : trace3.config = CvConfig.mkDefault := by
    rw [show trace3.config = trace2.config from
      update_config ratFns trace2 [det100], h2c]
  have hk3 := kStep_fixed (kStep kal1) hk2.2 hk2.1
  have h4t : trace4.tracks =
      [(1, stepTrack (0 + 1 + 1 + 1) 0 (false || decide (3 ≤ 0 + 1 + 1 + 1))
        (kStep (kStep (kStep kal1))))] :=
    update_matched (0 + 1 + 1) 0 false (kStep (kStep kal1)) trace3 h3c h3t
      hk3.2 hk3.1
  rw [show (false || decide (3 ≤ 0 + 1 + 1 + 1)) = true from by decide] at h4t
  refine ⟨rfl, ⟨_, h3t, rfl, rfl⟩, ?_, ?_⟩
  · rw [active_count_single trace3 _ h3t]
    simp [stepTrack]
  · rw [active_count_single trace4 _ h4t]
    simp [stepTrack]

end Cv
